import Mathlib

/-!
Shallow embedding of the face-morph engine (morph-engine.js), of the manual
landmark editor interpolator and of the head-rotation estimator of the
facemorph-web repository, with proofs about the specification claims.

JavaScript numbers are modelled as rationals, except where the source calls
transcendental functions (Math.sqrt, Math.atan2, Math.cos, Math.sin), which
are modelled over the reals. Pixel buffers are byte lists; a store through a
Uint8ClampedArray clamps to [0, 255] (after the explicit Math.round the
source performs), and an out-of-range store is ignored, which List.set also
does. Browser canvas operations (polygon rasterization, canvas blur
filters, drawImage rescaling) are not specified by the repository source;
they enter the model as oracle parameters.
-/

/-- A 2-D landmark point, a pair of JS numbers. -/
abbrev Point : Type := ℚ × ℚ

/-- A landmark array; an entry may be null / undefined (absent), and reads
past the end of the array give undefined, hence the Option. -/
abbrev Landmarks : Type := List (Option Point)

/-- landmarks[i] with out-of-range access yielding undefined (absent). -/
def lmGet (lm : Landmarks) (i : ℕ) : Option Point := lm.getD i none

/-- Math.max on two numbers (NaN excluded). Stated with an if so that the
kernel can evaluate it; it agrees with the lattice max (lemma below). -/
def qMax (a b : ℚ) : ℚ := if a ≤ b then b else a

/-- Math.min on two numbers (NaN excluded). -/
def qMin (a b : ℚ) : ℚ := if a ≤ b then a else b

/-- Math.abs on a number. -/
def qAbs (a : ℚ) : ℚ := if a < 0 then -a else a

/-- Math.max on integers. -/
def iMax (a b : ℤ) : ℤ := if a ≤ b then b else a

/-- Math.min on integers. -/
def iMin (a b : ℤ) : ℤ := if a ≤ b then a else b

theorem qMax_eq_max (a b : ℚ) : qMax a b = max a b := (max_def a b).symm

theorem qMin_eq_min (a b : ℚ) : qMin a b = min a b := (min_def a b).symm

theorem qAbs_eq_abs (a : ℚ) : qAbs a = |a| := by
  rw [qAbs]
  split
  · exact (abs_of_neg (by assumption)).symm
  · exact (abs_of_nonneg (le_of_not_lt (by assumption))).symm

/-- A browser ImageData value: width, height and RGBA byte data, row-major.
The browser type guarantees data.length = 4 * width * height; the
well-formedness is carried as a hypothesis where a theorem needs it. -/
structure ImageData where
  width : ℕ
  height : ℕ
  data : List ℕ
deriving DecidableEq

/-- Read byte i of a pixel buffer. An in-bounds typed-array read; the
default 0 is never reached on well-formed input. -/
def ImageData.byte (img : ImageData) (i : ℕ) : ℕ := img.data.getD i 0

/-- A store of Math.round(q) into a Uint8ClampedArray element: round, then
clamp into the byte range. -/
def clampByteQ (q : ℚ) : ℕ := (iMin 255 (iMax 0 (round q))).toNat

/-- A triangle as a triple of point indices, as in the source where a
triangle is a 3-element index array. -/
abbrev Tri : Type := ℕ × ℕ × ℕ

/-- inCircumcircle from morph-engine.js: translate so p is the origin and
take the sign of the 3x3 determinant; det > 0 means strictly inside. -/
def inCircumcircle (p a b c : Point) : Bool :=
  let ax := a.1 - p.1
  let ay := a.2 - p.2
  let bx := b.1 - p.1
  let by2 := b.2 - p.2
  let cx := c.1 - p.1
  let cy := c.2 - p.2
  let det := (ax * ax + ay * ay) * (bx * cy - cx * by2) -
    (bx * bx + by2 * by2) * (ax * cy - cx * ay) +
    (cx * cx + cy * cy) * (ax * by2 - bx * ay)
  det > 0

/-- hasEdge from morph-engine.js: tri.includes(a) && tri.includes(b). -/
def hasEdge (t : Tri) (e : ℕ × ℕ) : Bool :=
  (t.1 == e.1 || t.2.1 == e.1 || t.2.2 == e.1) &&
  (t.1 == e.2 || t.2.1 == e.2 || t.2.2 == e.2)

/-- The three edges [t0,t1], [t1,t2], [t2,t0] of a triangle. -/
def triEdges (t : Tri) : List (ℕ × ℕ) :=
  [(t.1, t.2.1), (t.2.1, t.2.2), (t.2.2, t.1)]

/-- Point lookup into a point array; indices are in range at every use on
well-formed input. -/
def getPt (pts : List Point) (i : ℕ) : Point := pts.getD i (0, 0)

/-- The boundary of the polygonal hole: an edge of a bad triangle belongs
to it iff no other bad triangle has that edge. List positions stand for
the object identities that the JS === comparison distinguishes; all
entries of the triangle list are distinct array objects. -/
def boundaryEdges (bad : List Tri) : List (ℕ × ℕ) :=
  (List.range bad.length).flatMap (fun p =>
    (triEdges (bad.getD p (0, 0, 0))).filter (fun e =>
      ! (List.range bad.length).any (fun q =>
        q != p && hasEdge (bad.getD q (0, 0, 0)) e)))

/-- One insertion step of Bowyer-Watson: collect the triangles whose
circumcircle contains point i, carve the hole, retriangulate it
against point i. -/
def bwStep (allPts : List Point) (acc : List Tri) (i : ℕ) : List Tri :=
  let p := getPt allPts i
  let isBad : Tri → Bool := fun t =>
    inCircumcircle p (getPt allPts t.1) (getPt allPts t.2.1) (getPt allPts t.2.2)
  let bad := acc.filter isBad
  let hole := boundaryEdges bad
  acc.filter (fun t => ! isBad t) ++ hole.map (fun e => (e.1, e.2, i))

/-- The insertion loop: after i steps, points 0 .. i-1 have been inserted
into the mesh seeded with the super-triangle (n, n+1, n+2). -/
def bwLoop (allPts : List Point) (n : ℕ) : ℕ → List Tri
  | 0 => [(n, n + 1, n + 2)]
  | i + 1 => bwStep allPts (bwLoop allPts n i) i

/-- The super-triangle vertices, appended after the input points. -/
def superTriPoints (w h : ℚ) : List Point :=
  let margin := qMax w h * 10
  [(-margin, -margin), (w + margin * 2, -margin), (w / 2, h + margin * 2)]

/-- bowyerWatson from morph-engine.js: run the insertion loop, then drop
every triangle that still uses a super-triangle vertex. -/
def bowyerWatson (points : List Point) (w h : ℚ) : List Tri :=
  let n := points.length
  let allPts := points ++ superTriPoints w h
  (bwLoop allPts n n).filter (fun t =>
    decide (t.1 < n) && decide (t.2.1 < n) && decide (t.2.2 < n))

/-- The valid-point filter at the top of computeDelaunay, each survivor
paired with the original index it came from (the indexMap of the
source). -/
def validPts (w h : ℚ) : List (Option Point) → ℕ → List (ℕ × Point)
  | [], _ => []
  | op :: rest, i =>
    (match op with
      | some p =>
        if 0 ≤ p.1 ∧ p.1 < w ∧ 0 ≤ p.2 ∧ p.2 < h then [(i, p)] else []
      | none => []) ++ validPts w h rest (i + 1)

/-- computeDelaunay from morph-engine.js: filter the points, triangulate,
remap triangle indices back to original input indices and drop any
triangle whose remap lookup failed. -/
def computeDelaunay (points : List (Option Point)) (w h : ℚ) : List Tri :=
  if points.length < 3 then []
  else
    let vp := validPts w h points 0
    if vp.length < 3 then []
    else
      (bowyerWatson (vp.map Prod.snd) w h).filterMap (fun t =>
        match vp[t.1]?, vp[t.2.1]?, vp[t.2.2]? with
        | some a, some b, some c => some (a.1, b.1, c.1)
        | _, _, _ => none)

/-! ### Triangulation invariants (claim C5)

During the insertion loop every triangle references only already inserted
points or super-triangle vertices, with three pairwise distinct vertices. -/

/-- A legal vertex while inserting point i: an already inserted point
(index < i) or a super-triangle vertex (n, n+1 or n+2). -/
def vtxOK (n i v : ℕ) : Prop := v < i ∨ (n ≤ v ∧ v < n + 3)

/-- The mesh invariant for one triangle. -/
def triOK (n i : ℕ) (t : Tri) : Prop :=
  (vtxOK n i t.1 ∧ vtxOK n i t.2.1 ∧ vtxOK n i t.2.2) ∧
  (t.1 ≠ t.2.1 ∧ t.1 ≠ t.2.2 ∧ t.2.1 ≠ t.2.2)

theorem vtxOK_mono (n i v : ℕ) (hv : vtxOK n i v) : vtxOK n (i + 1) v := by
  rcases hv with hv | hv
  · exact Or.inl (by omega)
  · exact Or.inr hv

theorem triOK_mono (n i : ℕ) (t : Tri) (ht : triOK n i t) : triOK n (i + 1) t :=
  ⟨⟨vtxOK_mono _ _ _ ht.1.1, vtxOK_mono _ _ _ ht.1.2.1, vtxOK_mono _ _ _ ht.1.2.2⟩, ht.2⟩

theorem triOK_mk (n i a b c : ℕ) (ha : vtxOK n i a) (hb : vtxOK n i b)
    (hc : vtxOK n i c) (hab : a ≠ b) (hac : a ≠ c) (hbc : b ≠ c) :
    triOK n i (a, b, c) := ⟨⟨ha, hb, hc⟩, hab, hac, hbc⟩

theorem mem_triEdges {t : Tri} {e : ℕ × ℕ} :
    e ∈ triEdges t ↔ e = (t.1, t.2.1) ∨ e = (t.2.1, t.2.2) ∨ e = (t.2.2, t.1) := by
  simp [triEdges]

/-- Every boundary edge of the hole is an edge of one of the bad
triangles. -/
theorem boundaryEdges_mem (bad : List Tri) (e : ℕ × ℕ) (he : e ∈ boundaryEdges bad) :
    ∃ t ∈ bad, e ∈ triEdges t := by
  rw [boundaryEdges, List.mem_flatMap] at he
  rcases he with ⟨p, hp, he⟩
  rw [List.mem_range] at hp
  refine ⟨bad.getD p (0, 0, 0), ?_, (List.mem_filter.1 he).1⟩
  rw [List.getD_eq_getElem _ _ hp]
  exact List.getElem_mem hp

/-- One Bowyer-Watson insertion step preserves the mesh invariant. -/
theorem bwStep_ok (allPts : List Point) (acc : List Tri) (i n : ℕ) (hin : i < n)
    (H : ∀ t ∈ acc, triOK n i t) :
    ∀ t ∈ bwStep allPts acc i, triOK n (i + 1) t := by
  intro t ht
  rw [bwStep, List.mem_append] at ht
  rcases ht with ht | ht
  · exact triOK_mono _ _ _ (H t (List.mem_of_mem_filter ht))
  · rcases List.mem_map.1 ht with ⟨e, he, rfl⟩
    rcases boundaryEdges_mem _ _ he with ⟨u, hu, heu⟩
    have hu2 : triOK n i u := H u (List.mem_of_mem_filter hu)
    rcases hu2 with ⟨⟨hb1, hb2, hb3⟩, hd1, hd2, hd3⟩
    have hne : ∀ v : ℕ, vtxOK n i v → v ≠ i := by
      intro v hv
      rcases hv with hv | hv <;> omega
    rcases mem_triEdges.1 heu with rfl | rfl | rfl
    · exact triOK_mk n (i + 1) u.1 u.2.1 i (vtxOK_mono _ _ _ hb1)
        (vtxOK_mono _ _ _ hb2) (Or.inl (by omega)) hd1 (hne _ hb1) (hne _ hb2)
    · exact triOK_mk n (i + 1) u.2.1 u.2.2 i (vtxOK_mono _ _ _ hb2)
        (vtxOK_mono _ _ _ hb3) (Or.inl (by omega)) hd3 (hne _ hb2) (hne _ hb3)
    · exact triOK_mk n (i + 1) u.2.2 u.1 i (vtxOK_mono _ _ _ hb3)
        (vtxOK_mono _ _ _ hb1) (Or.inl (by omega))
        (fun hcc => hd2 hcc.symm) (hne _ hb3) (hne _ hb1)

/-- The insertion loop maintains the mesh invariant. -/
theorem bwLoop_ok (allPts : List Point) (n i : ℕ) (hi : i ≤ n) :
    ∀ t ∈ bwLoop allPts n i, triOK n i t := by
  induction i with
  | zero =>
    intro t ht
    simp only [bwLoop, List.mem_singleton] at ht
    subst ht
    exact triOK_mk n 0 n (n + 1) (n + 2) (Or.inr ⟨by omega, by omega⟩)
      (Or.inr ⟨by omega, by omega⟩) (Or.inr ⟨by omega, by omega⟩)
      (by omega) (by omega) (by omega)
  | succ k ih =>
    intro t ht
    exact bwStep_ok allPts _ k n (by omega) (ih (by omega)) t ht

/-- bowyerWatson output: indices below the input length and pairwise
distinct. -/
theorem bowyerWatson_ok (points : List Point) (w h : ℚ) :
    ∀ t ∈ bowyerWatson points w h,
      (t.1 < points.length ∧ t.2.1 < points.length ∧ t.2.2 < points.length) ∧
      (t.1 ≠ t.2.1 ∧ t.1 ≠ t.2.2 ∧ t.2.1 ≠ t.2.2) := by
  intro t ht
  rw [bowyerWatson] at ht
  rcases List.mem_filter.1 ht with ⟨hmem, hcond⟩
  have hinv := bwLoop_ok _ points.length points.length le_rfl t hmem
  simp only [Bool.and_eq_true, decide_eq_true_eq] at hcond
  exact ⟨⟨hcond.1.1, hcond.1.2, hcond.2⟩, hinv.2⟩

/-- A filtered point keeps an original index at least the running index
and below the running index plus the remaining length. -/
theorem validPts_fst_bound (w h : ℚ) (l : List (Option Point)) :
    ∀ (i : ℕ), ∀ x ∈ validPts w h l i, i ≤ x.1 ∧ x.1 < i + l.length := by
  induction l with
  | nil =>
    intro i x hx
    simp [validPts] at hx
  | cons op rest ih =>
    intro i x hx
    cases op with
    | some p =>
      simp only [validPts] at hx
      rw [List.mem_append] at hx
      rcases hx with hx | hx
      · split at hx
        · rw [List.mem_singleton] at hx
          subst hx
          simp only [List.length_cons]
          omega
        · simp at hx
      · have := ih (i + 1) x hx
        simp only [List.length_cons]
        omega
    | none =>
      simp only [validPts] at hx
      rw [List.nil_append] at hx
      have := ih (i + 1) x hx
      simp only [List.length_cons]
      omega

/-- The original indices attached by the valid-point filter are strictly
increasing along the list. -/
theorem validPts_fst_pairwise (w h : ℚ) (l : List (Option Point)) :
    ∀ (i : ℕ), (validPts w h l i).Pairwise (fun x y => x.1 < y.1) := by
  induction l with
  | nil =>
    intro i
    simp [validPts]
  | cons op rest ih =>
    intro i
    cases op with
    | some p =>
      simp only [validPts]
      rw [List.pairwise_append]
      refine ⟨?_, ih (i + 1), ?_⟩
      · split
        · simp
        · simp
      · intro x hx y hy
        have hy2 := (validPts_fst_bound w h rest (i + 1) y hy).1
        split at hx
        · rw [List.mem_singleton] at hx
          subst hx
          omega
        · simp at hx
    | none =>
      simp only [validPts]
      rw [List.nil_append]
      exact ih (i + 1)

/-- Elements of the valid-point list at distinct positions carry distinct
original indices. -/
theorem validPts_fst_ne (w h : ℚ) (l : List (Option Point)) (a b : ℕ)
    (x y : ℕ × Point) (ha : (validPts w h l 0)[a]? = some x)
    (hb : (validPts w h l 0)[b]? = some y) (hab : a ≠ b) : x.1 ≠ y.1 := by
  rcases List.getElem?_eq_some.1 ha with ⟨han, hax⟩
  rcases List.getElem?_eq_some.1 hb with ⟨hbn, hby⟩
  have hp := validPts_fst_pairwise w h l 0
  rw [List.pairwise_iff_getElem] at hp
  rcases Nat.lt_or_ge a b with hlt | hge
  · have := hp a b han hbn hlt
    rw [hax, hby] at this
    omega
  · have hlt2 : b < a := by omega
    have := hp b a hbn han hlt2
    rw [hax, hby] at this
    omega

/-- computeDelaunay output: indices below the input length and pairwise
distinct. -/
theorem computeDelaunay_ok (points : List (Option Point)) (w h : ℚ) :
    ∀ t ∈ computeDelaunay points w h,
      (t.1 < points.length ∧ t.2.1 < points.length ∧ t.2.2 < points.length) ∧
      (t.1 ≠ t.2.1 ∧ t.1 ≠ t.2.2 ∧ t.2.1 ≠ t.2.2) := by
  intro t ht
  simp only [computeDelaunay] at ht
  split at ht
  · simp at ht
  · split at ht
    · simp at ht
    · rcases List.mem_filterMap.1 ht with ⟨u, hu, hmatch⟩
      have hbw := bowyerWatson_ok _ w h u hu
      rcases hma : (validPts w h points 0)[u.1]? with _ | a
      · rw [hma] at hmatch
        simp at hmatch
      · rcases hmb : (validPts w h points 0)[u.2.1]? with _ | b
        · rw [hma, hmb] at hmatch
          simp at hmatch
        · rcases hmc : (validPts w h points 0)[u.2.2]? with _ | c
          · rw [hma, hmb, hmc] at hmatch
            simp at hmatch
          · rw [hma, hmb, hmc] at hmatch
            simp only [Option.some.injEq] at hmatch
            subst hmatch
            have hamem : a ∈ validPts w h points 0 := by
              rcases List.getElem?_eq_some.1 hma with ⟨hn, hx⟩
              rw [← hx]
              exact List.getElem_mem hn
            have hbmem : b ∈ validPts w h points 0 := by
              rcases List.getElem?_eq_some.1 hmb with ⟨hn, hx⟩
              rw [← hx]
              exact List.getElem_mem hn
            have hcmem : c ∈ validPts w h points 0 := by
              rcases List.getElem?_eq_some.1 hmc with ⟨hn, hx⟩
              rw [← hx]
              exact List.getElem_mem hn
            refine ⟨⟨?_, ?_, ?_⟩, ?_, ?_, ?_⟩
            · show a.1 < points.length
              have := (validPts_fst_bound w h points 0 a hamem).2
              omega
            · show b.1 < points.length
              have := (validPts_fst_bound w h points 0 b hbmem).2
              omega
            · show c.1 < points.length
              have := (validPts_fst_bound w h points 0 c hcmem).2
              omega
            · show a.1 ≠ b.1
              exact validPts_fst_ne w h points u.1 u.2.1 a b hma hmb hbw.2.1
            · show a.1 ≠ c.1
              exact validPts_fst_ne w h points u.1 u.2.2 a c hma hmc hbw.2.2.1
            · show b.1 ≠ c.1
              exact validPts_fst_ne w h points u.2.1 u.2.2 b c hmb hmc hbw.2.2.2

/-- C5: for every input point set, every triangle in the triangulation
returned by computeDelaunay / bowyerWatson references only original
input-point indices (no super-triangle vertex, i.e. no index at or above
the number of points) and has three pairwise-distinct vertex indices. -/
theorem c5_triangulation_indices (pts : List Point) (opts : List (Option Point))
    (w h wo ho : ℚ) :
    (∀ t ∈ bowyerWatson pts w h,
      (t.1 < pts.length ∧ t.2.1 < pts.length ∧ t.2.2 < pts.length) ∧
      (t.1 ≠ t.2.1 ∧ t.1 ≠ t.2.2 ∧ t.2.1 ≠ t.2.2)) ∧
    (∀ t ∈ computeDelaunay opts wo ho,
      (t.1 < opts.length ∧ t.2.1 < opts.length ∧ t.2.2 < opts.length) ∧
      (t.1 ≠ t.2.1 ∧ t.1 ≠ t.2.2 ∧ t.2.1 ≠ t.2.2)) :=
  ⟨bowyerWatson_ok pts w h, computeDelaunay_ok opts wo ho⟩

/-- Witness for C5 on a concrete three-point input whose triangulation is
nonempty. -/
theorem c5_triangulation_indices_witness :
    ((0, 1, 2) ∈ bowyerWatson [(0, 0), (1, 0), (0, 1)] 2 2) ∧
    ((((0, 1, 2) : Tri).1 < [((0 : ℚ), (0 : ℚ)), (1, 0), (0, 1)].length ∧
      ((0, 1, 2) : Tri).2.1 < [((0 : ℚ), (0 : ℚ)), (1, 0), (0, 1)].length ∧
      ((0, 1, 2) : Tri).2.2 < [((0 : ℚ), (0 : ℚ)), (1, 0), (0, 1)].length) ∧
     (((0, 1, 2) : Tri).1 ≠ ((0, 1, 2) : Tri).2.1 ∧
      ((0, 1, 2) : Tri).1 ≠ ((0, 1, 2) : Tri).2.2 ∧
      ((0, 1, 2) : Tri).2.1 ≠ ((0, 1, 2) : Tri).2.2)) := by
  have hm : (0, 1, 2) ∈ bowyerWatson [(0, 0), (1, 0), (0, 1)] 2 2 := by
    with_unfolding_all decide
  exact ⟨hm,
    (c5_triangulation_indices [(0, 0), (1, 0), (0, 1)] [] 2 2 2 2).1 (0, 1, 2) hm⟩

/-! ### Affine warp (morph-engine.js, computeAffineTransform / warpTriangle) -/

/-- computeAffineTransform from morph-engine.js: closed-form solve of the
affine map sending srcTri to dstTri; null when the source triangle is
near-degenerate. -/
def computeAffineTransform (srcTri dstTri : Point × Point × Point) :
    Option (ℚ × ℚ × ℚ × ℚ × ℚ × ℚ) :=
  let x0 := srcTri.1.1
  let y0 := srcTri.1.2
  let x1 := srcTri.2.1.1
  let y1 := srcTri.2.1.2
  let x2 := srcTri.2.2.1
  let y2 := srcTri.2.2.2
  let u0 := dstTri.1.1
  let v0 := dstTri.1.2
  let u1 := dstTri.2.1.1
  let v1 := dstTri.2.1.2
  let u2 := dstTri.2.2.1
  let v2 := dstTri.2.2.2
  let det := (x0 - x2) * (y1 - y2) - (x1 - x2) * (y0 - y2)
  if qAbs det < 1 / 10000000000 then none
  else
    let invDet := 1 / det
    let a := ((u0 - u2) * (y1 - y2) - (u1 - u2) * (y0 - y2)) * invDet
    let b := ((u1 - u2) * (x0 - x2) - (u0 - u2) * (x1 - x2)) * invDet
    let c := u2 - a * x2 - b * y2
    let d := ((v0 - v2) * (y1 - y2) - (v1 - v2) * (y0 - y2)) * invDet
    let e := ((v1 - v2) * (x0 - x2) - (v0 - v2) * (x1 - x2)) * invDet
    let f := v2 - d * x2 - e * y2
    some (a, b, c, d, e, f)

/-- isPointInTriangle from morph-engine.js: barycentric containment with
the 1e-3 tolerance; near-degenerate triangles contain nothing. -/
def isPointInTriangle (px py : ℚ) (tri : Point × Point × Point) : Bool :=
  let x0 := tri.1.1
  let y0 := tri.1.2
  let x1 := tri.2.1.1
  let y1 := tri.2.1.2
  let x2 := tri.2.2.1
  let y2 := tri.2.2.2
  let v0x := x2 - x0
  let v0y := y2 - y0
  let v1x := x1 - x0
  let v1y := y1 - y0
  let v2x := px - x0
  let v2y := py - y0
  let dot00 := v0x * v0x + v0y * v0y
  let dot01 := v0x * v1x + v0y * v1y
  let dot02 := v0x * v2x + v0y * v2y
  let dot11 := v1x * v1x + v1y * v1y
  let dot12 := v1x * v2x + v1y * v2y
  let denom := dot00 * dot11 - dot01 * dot01
  if qAbs denom < 1 / 10000000000 then false
  else
    let invDenom := 1 / denom
    let u := (dot11 * dot02 - dot01 * dot12) * invDenom
    let v := (dot00 * dot12 - dot01 * dot02) * invDenom
    decide (u ≥ -0.001) && decide (v ≥ -0.001) && decide (u + v ≤ 1.001)

/-- One destination pixel of warpTriangle: if the pixel is inside the
destination triangle and the inverse-mapped source position is in
bounds, write the bilinear sample to R, G, B and 255 to A. -/
def warpPixel (srcData : ImageData) (m : ℚ × ℚ × ℚ × ℚ × ℚ × ℚ)
    (dstTri : Point × Point × Point) (dstW : ℕ) (data : List ℕ)
    (x y : ℕ) : List ℕ :=
  if ! isPointInTriangle (x : ℚ) (y : ℚ) dstTri then data
  else
    let a := m.1
    let b := m.2.1
    let c := m.2.2.1
    let d := m.2.2.2.1
    let e := m.2.2.2.2.1
    let f := m.2.2.2.2.2
    let srcX := a * (x : ℚ) + b * (y : ℚ) + c
    let srcY := d * (x : ℚ) + e * (y : ℚ) + f
    if srcX < 0 ∨ srcX ≥ (srcData.width : ℚ) - 1 ∨
        srcY < 0 ∨ srcY ≥ (srcData.height : ℚ) - 1 then data
    else
      let x0 := (⌊srcX⌋).toNat
      let y0 := (⌊srcY⌋).toNat
      let x1 := if x0 + 1 ≤ srcData.width - 1 then x0 + 1 else srcData.width - 1
      let y1 := if y0 + 1 ≤ srcData.height - 1 then y0 + 1 else srcData.height - 1
      let fx := srcX - (x0 : ℚ)
      let fy := srcY - (y0 : ℚ)
      let sample : ℕ → ℕ := fun ch =>
        let v00 := (srcData.byte ((y0 * srcData.width + x0) * 4 + ch) : ℚ)
        let v10 := (srcData.byte ((y0 * srcData.width + x1) * 4 + ch) : ℚ)
        let v01 := (srcData.byte ((y1 * srcData.width + x0) * 4 + ch) : ℚ)
        let v11 := (srcData.byte ((y1 * srcData.width + x1) * 4 + ch) : ℚ)
        clampByteQ (v00 * (1 - fx) * (1 - fy) + v10 * fx * (1 - fy) +
          v01 * (1 - fx) * fy + v11 * fx * fy)
      let dstIdx := (y * dstW + x) * 4
      ((((data.set dstIdx (sample 0)).set (dstIdx + 1) (sample 1)).set
        (dstIdx + 2) (sample 2)).set (dstIdx + 3) 255)

/-- warpTriangle from morph-engine.js: clip the bounding box of the
destination triangle, invert the affine map and fill the box. -/
def warpTriangle (srcData dstData : ImageData)
    (srcTri dstTri : Point × Point × Point) : ImageData :=
  let minX := iMax 0 ⌊qMin (qMin dstTri.1.1 dstTri.2.1.1) dstTri.2.2.1⌋
  let maxX := iMin ((dstData.width : ℤ) - 1) ⌈qMax (qMax dstTri.1.1 dstTri.2.1.1) dstTri.2.2.1⌉
  let minY := iMax 0 ⌊qMin (qMin dstTri.1.2 dstTri.2.1.2) dstTri.2.2.2⌋
  let maxY := iMin ((dstData.height : ℤ) - 1) ⌈qMax (qMax dstTri.1.2 dstTri.2.1.2) dstTri.2.2.2⌉
  if minX ≥ maxX ∨ minY ≥ maxY then dstData
  else
    match computeAffineTransform dstTri srcTri with
    | none => dstData
    | some m =>
      let xs := List.range' minX.toNat (maxX.toNat + 1 - minX.toNat)
      let ys := List.range' minY.toNat (maxY.toNat + 1 - minY.toNat)
      { dstData with
        data := ys.foldl (fun dy yy =>
          xs.foldl (fun dx xx => warpPixel srcData m dstTri dstData.width dx xx yy) dy)
          dstData.data }

/-! ### Masks, mouth openness and color correction (morph-engine.js) -/

/-- hullIndices from the MorphEngine constructor. -/
def hullIndices : List ℕ :=
  [10, 338, 297, 332, 284, 251, 389, 356, 454, 323, 361, 288,
   397, 365, 379, 378, 400, 377, 152, 148, 176, 149, 150, 136,
   172, 58, 132, 93, 234, 127, 162, 21, 54, 103, 67, 109]

/-- The hull points: source landmarks at the hull indices with absent
entries dropped (createFaceMask lines 362). -/
def hullPoints (lm : Landmarks) : List Point :=
  hullIndices.filterMap (fun i => lmGet lm i)

/-- createFaceMask: the canvas creation can throw (error); fewer than 3
valid hull points yields null (ok none); otherwise the rasterized,
eroded and five-pass-blurred mask is produced by the browser canvas,
modelled by the oracle (ok some). Centroid, erosion factor and blur radii
live behind the oracle; no claim depends on them. -/
def createFaceMask (lm : Landmarks) (oracleMask : Option (ℕ → ℕ)) :
    Except Unit (Option (ℕ → ℕ)) :=
  match oracleMask with
  | none => .error ()
  | some m => if (hullPoints lm).length < 3 then .ok none else .ok (some m)

/-- detectMouthOpenness from morph-engine.js: absent inner-lip landmarks
give 0; a horizontal width under 1 gives 0; otherwise the clamped affine
rescale of the vertical-to-horizontal opening. -/
def detectMouthOpenness (lm : Landmarks) : ℚ :=
  match lmGet lm 13, lmGet lm 14, lmGet lm 78, lmGet lm 308 with
  | some topLip, some bottomLip, some leftCorner, some rightCorner =>
    let verticalOpening := qAbs (bottomLip.2 - topLip.2)
    let horizontalWidth := qAbs (rightCorner.1 - leftCorner.1)
    if horizontalWidth < 1 then 0
    else qMax 0 (qMin 1 ((verticalOpening / horizontalWidth - 0.08) / 0.25))
  | _, _, _, _ => 0

/-- innerLipIndices from createMouthInteriorMask. -/
def innerLipIndices : List ℕ :=
  [78, 191, 80, 81, 82, 13, 312, 311, 310, 415, 308,
   324, 318, 402, 317, 14, 87, 178, 88, 95]

/-- createMouthInteriorMask: openness below 0.15 yields null before any
canvas work; the canvas creation can throw; fewer than 10 present
inner-lip points yields null; otherwise the blurred polygon raster comes
from the oracle and each red byte is scaled by min(1, openness * 1.5). -/
def createMouthInteriorMask (lm : Landmarks) (openness : ℚ)
    (oracleRaw : Option (ℕ → ℕ)) : Except Unit (Option (ℕ → ℕ)) :=
  if openness < 0.15 then .ok none
  else
    match oracleRaw with
    | none => .error ()
    | some raw =>
      if (innerLipIndices.filterMap (fun i => lmGet lm i)).length < 10 then .ok none
      else
        let scaleFactor := qMin 1 (openness * 1.5)
        .ok (some (fun p => clampByteQ ((raw p : ℚ) * scaleFactor)))

/-- The masked region of colorCorrect: pixels whose hull-mask fraction
exceeds one half. Masks are grayscale; the source reads only the red
channel, so the model stores one byte per pixel. -/
def maskedPixels (maskPx : ℕ → ℕ) (w h : ℕ) : List ℕ :=
  (List.range (w * h)).filter (fun p => decide ((maskPx p : ℚ) / 255 > 0.5))

/-- Sum of one channel of an image over a pixel list. -/
def chanSum (img : ImageData) (ps : List ℕ) (ch : ℕ) : ℚ :=
  (ps.map (fun p => (img.byte (4 * p + ch) : ℚ))).sum

/-- One pixel of the correction loop of colorCorrect: each channel scaled
by its factor, rounded and clamped; alpha preserved. -/
def correctedPixel (targetData : ImageData) (rF gF bF : ℚ) (p : ℕ) : List ℕ :=
  [clampByteQ ((targetData.byte (4 * p) : ℚ) * rF),
   clampByteQ ((targetData.byte (4 * p + 1) : ℚ) * gF),
   clampByteQ ((targetData.byte (4 * p + 2) : ℚ) * bF),
   targetData.byte (4 * p + 3)]

/-- colorCorrect from morph-engine.js: per-channel mean matching of the
warped buffer to the source over the masked region, at half strength,
with rounding and clamping per channel and alpha preserved. -/
def colorCorrect (srcData targetData : ImageData) (maskPx : ℕ → ℕ)
    (w h : ℕ) : ImageData :=
  let ms := maskedPixels maskPx w h
  let srcCount := ms.length
  let tgtCount := ms.length
  if srcCount = 0 ∨ tgtCount = 0 then targetData
  else
    let srcR := chanSum srcData ms 0 / (srcCount : ℚ)
    let srcG := chanSum srcData ms 1 / (srcCount : ℚ)
    let srcB := chanSum srcData ms 2 / (srcCount : ℚ)
    let tgtR := chanSum targetData ms 0 / (tgtCount : ℚ)
    let tgtG := chanSum targetData ms 1 / (tgtCount : ℚ)
    let tgtB := chanSum targetData ms 2 / (tgtCount : ℚ)
    let strength : ℚ := 0.5
    let rFactor := 1 + strength * (srcR - tgtR) / qMax tgtR 1
    let gFactor := 1 + strength * (srcG - tgtG) / qMax tgtG 1
    let bFactor := 1 + strength * (srcB - tgtB) / qMax tgtB 1
    { width := w, height := h,
      data := (List.range (w * h)).flatMap
        (correctedPixel targetData rFactor gFactor bFactor) }

/-! ### The composite step of morphFace -/

/-- The blendFactor local of the composite loop of morphFace, from the
hull-mask fraction maskValue = mask byte / 255. Math.sqrt forces the
reals. -/
noncomputable def blendFactor (isAnimal : Bool) (alpha maskValue : ℚ) : ℝ :=
  if isAnimal then (if maskValue > 0.1 then (alpha : ℝ) else 0)
  else if alpha > 0.95 then Real.sqrt (maskValue : ℝ) * (alpha : ℝ)
  else (maskValue : ℝ) * (alpha : ℝ)

/-- The mouthFactor local of the composite loop: the mouth-mask fraction,
and 0 when the mouth mask is absent or the target is an animal. -/
def mouthFactor (mouthMask : Option (ℕ → ℕ)) (isAnimal : Bool) (p : ℕ) : ℚ :=
  match mouthMask, isAnimal with
  | some mm, false => (mm p : ℚ) / 255
  | _, _ => 0

/-- A store of Math.round(x) into a Uint8ClampedArray element, real-number
version for the composite loop. -/
noncomputable def clampByteR (x : ℝ) : ℕ := (iMin 255 (iMax 0 (round x))).toNat

/-- One pixel of the final composite loop of morphFace: the four bytes
[R, G, B, 255] written at pixel p. -/
noncomputable def compositePixel (srcData warped corrected : ImageData)
    (maskPx : ℕ → ℕ) (mouthMask : Option (ℕ → ℕ)) (alpha : ℚ)
    (isAnimal : Bool) (p : ℕ) : List ℕ :=
  let maskValue : ℚ := (maskPx p : ℚ) / 255
  let bf : ℝ := blendFactor isAnimal alpha maskValue
  let mf : ℚ := mouthFactor mouthMask isAnimal p
  let chan : ℕ → ℕ := fun ch =>
    if warped.byte (4 * p + 3) > 0 ∧ bf > 0.01 then
      let morphed : ℝ := (srcData.byte (4 * p + ch) : ℝ) * (1 - bf) +
        (corrected.byte (4 * p + ch) : ℝ) * bf
      if mf > 0.1 then
        clampByteR (morphed * (1 - (mf : ℝ)) + (srcData.byte (4 * p + ch) : ℝ) * (mf : ℝ))
      else clampByteR morphed
    else srcData.byte (4 * p + ch)
  [chan 0, chan 1, chan 2, 255]

/-- The whole composite loop over the first numPix pixels. -/
noncomputable def compositeData (srcData warped corrected : ImageData)
    (maskPx : ℕ → ℕ) (mouthMask : Option (ℕ → ℕ)) (alpha : ℚ)
    (isAnimal : Bool) (numPix : ℕ) : List ℕ :=
  (List.range numPix).flatMap
    (compositePixel srcData warped corrected maskPx mouthMask alpha isAnimal)

/-! ### The morph orchestrator (morph-engine.js, morphFace) -/

/-- The landmark index groups inserted into the key-landmark set by
getKeyLandmarkIndices, in source order. -/
def keyLandmarkRaw : List ℕ :=
  [10, 338, 297, 332, 284, 251, 389, 356, 454, 323, 361, 288,
   397, 365, 379, 378, 400, 377, 152, 148, 176, 149, 150, 136,
   172, 58, 132, 93, 234, 127, 162, 21, 54, 103, 67, 109] ++
  [33, 7, 163, 144, 145, 153, 154, 155, 133, 173, 157, 158, 159, 160, 161, 246,
   130, 25, 110, 24, 23, 22, 26, 112, 243, 190, 56, 28, 27, 29, 30, 247] ++
  [362, 382, 381, 380, 374, 373, 390, 249, 263, 466, 388, 387, 386, 385, 384, 398,
   359, 255, 339, 254, 253, 252, 256, 341, 463, 414, 286, 258, 257, 259, 260, 467] ++
  [70, 63, 105, 66, 107, 55, 65, 52, 53, 46, 124, 35, 111, 117, 118, 119, 120, 121, 128, 245] ++
  [300, 293, 334, 296, 336, 285, 295, 282, 283, 276, 353, 265, 340, 346, 347, 348, 349, 350, 357, 465] ++
  [1, 2, 98, 327, 4, 5, 6, 168, 197, 195, 19, 94, 164, 0, 11, 12, 13, 14, 15, 16, 17, 18,
   200, 199, 175, 129, 209, 49, 48, 219, 166, 79, 218, 237, 44, 1, 274, 457, 275, 278,
   279, 360, 363, 420, 399, 412, 351, 6, 122, 196, 3, 51, 45, 275] ++
  [61, 146, 91, 181, 84, 17, 314, 405, 321, 375, 291, 409, 270, 269, 267, 0, 37, 39, 40, 185,
   61, 185, 40, 39, 37, 0, 267, 269, 270, 409, 291, 375, 321, 405, 314, 17, 84, 181, 91, 146,
   76, 77, 90, 180, 85, 16, 315, 404, 320, 307, 306, 408, 304, 303, 302, 11, 72, 38, 41, 74] ++
  [78, 95, 88, 178, 87, 14, 317, 402, 318, 324, 308, 415, 310, 311, 312, 13, 82, 81, 80, 191,
   78, 191, 80, 81, 82, 13, 312, 311, 310, 415, 308, 324, 318, 402, 317, 14, 87, 178, 88, 95] ++
  [62, 96, 89, 179, 86, 15, 316, 403, 319, 325, 307, 292, 306, 408, 304, 303, 302,
   183, 42, 73, 72, 11, 302, 303, 304, 408, 306, 292, 307, 325, 319, 403, 316, 15, 86, 179, 89, 96, 62] ++
  [152, 148, 176, 149, 150, 136, 172, 58, 132, 93, 234, 127, 162, 21, 54, 103, 67, 109,
   377, 378, 379, 365, 397, 288, 361, 323, 454, 356, 389, 251, 284, 332, 297, 338, 10,
   175, 171, 140, 169, 170, 211] ++
  [36, 205, 206, 207, 187, 147, 123, 116, 137, 227, 34, 139, 143, 35, 124,
   266, 425, 426, 427, 411, 376, 352, 345, 366, 447, 264, 368, 372, 265, 353] ++
  [468, 469, 470, 471, 472, 473, 474, 475, 476, 477] ++
  [101, 100, 142, 126, 47, 114, 188, 217, 174, 196, 197, 419, 248, 281,
   329, 330, 280, 346, 352, 371, 266, 423, 426, 436, 432, 422, 410, 287,
   50, 36, 115, 131, 198, 126, 204, 202, 212, 214, 192, 213] ++
  [68, 69, 104, 108, 151, 337, 299, 333, 298, 301] ++
  [193, 168, 417, 245, 244, 233, 232, 231, 230, 229, 228, 31, 32, 33, 246,
   261, 262, 448, 449, 450, 451, 452, 453]

/-- getKeyLandmarkIndices: the groups are inserted into a JS Set (first
occurrence kept) and then sorted ascending; the result is the ascending
list of the distinct indices. -/
def keyLandmarkIndices : List ℕ :=
  keyLandmarkRaw.dedup.mergeSort (fun a b => a ≤ b)

/-- The scaling of the target landmarks into source pixel space; null
entries stay null. -/
def scaleLm (tgtLm : Landmarks) (sx sy : ℚ) : Landmarks :=
  tgtLm.map (fun p =>
    match p with
    | some q => some (q.1 * sx, q.2 * sy)
    | none => none)

/-- keyTargetPoints: the key landmark indices whose scaled target landmark
is present, each paired with that point. -/
def keyTargetPoints (scaled : Landmarks) : List (ℕ × Point) :=
  keyLandmarkIndices.filterMap (fun i => (lmGet scaled i).map (fun pt => (i, pt)))

/-- mappedTriangles: remap triangle indices to original landmark indices
and keep only triangles whose indices are inside both landmark arrays. -/
def mappedTriangles (kp : List (ℕ × Point)) (tris : List Tri)
    (srcLen tgtLen : ℕ) : List Tri :=
  (tris.filterMap (fun t =>
    match kp[t.1]?, kp[t.2.1]?, kp[t.2.2]? with
    | some a, some b, some c => some (a.1, b.1, c.1)
    | _, _, _ => none)).filter (fun t =>
    decide (t.1 < srcLen) && decide (t.2.1 < srcLen) && decide (t.2.2 < srcLen) &&
    decide (t.1 < tgtLen) && decide (t.2.1 < tgtLen) && decide (t.2.2 < tgtLen))

/-- The body of the per-triangle warp loop: skip a triangle with an absent
vertex or an unsigned cross product below 1, else warp the scaled target
triangle onto the source triangle. -/
def warpStep (scaledTargetData : ImageData) (srcLm scaled : Landmarks)
    (wd : ImageData) (t : Tri) : ImageData :=
  match lmGet srcLm t.1, lmGet srcLm t.2.1, lmGet srcLm t.2.2,
      lmGet scaled t.1, lmGet scaled t.2.1, lmGet scaled t.2.2 with
  | some s0, some s1, some s2, some t0, some t1, some t2 =>
    let srcArea := qAbs ((s1.1 - s0.1) * (s2.2 - s0.2) - (s2.1 - s0.1) * (s1.2 - s0.2))
    let targetArea := qAbs ((t1.1 - t0.1) * (t2.2 - t0.2) - (t2.1 - t0.1) * (t1.2 - t0.2))
    if srcArea < 1 ∨ targetArea < 1 then wd
    else warpTriangle scaledTargetData wd (t0, t1, t2) (s0, s1, s2)
  | _, _, _, _, _, _ => wd

/-- The browser-dependent steps of morphFace: the drawImage rescale of the
target to source dimensions and the two canvas-rasterized masks. A none
models the browser call throwing (for example getImageData on a tainted
canvas); the repository source does not determine these pixels. -/
structure Oracles where
  scaledTarget : Option ImageData
  faceMask : Option (ℕ → ℕ)
  mouthRaw : Option (ℕ → ℕ)

/-- The console.error diagnostics of morphFace, as a status the model
returns alongside the output buffer. -/
inductive MorphError where
  | insufficientLandmarks
  | maskFailed
  | exception
deriving DecidableEq

/-- The outcome of one morphFace call: the output buffer, and which
diagnostic fired (none on success). -/
structure MorphResult where
  out : ImageData
  err : Option MorphError
deriving DecidableEq

/-- The element-by-element copy loop writing src into dst: indices past
the end of the destination typed array are ignored, indices past the end
of src are never read (the loop stops at src.length). -/
def copyInto (dst src : List ℕ) : List ℕ :=
  (List.range dst.length).map (fun i =>
    if i < src.length then src.getD i 0 else dst.getD i 0)

/-- The try block of morphFace: validation, landmark scaling,
triangulation from the target landmarks, warp loop, masks, color
correction and the final composite. An error is a thrown browser call,
landing in the catch of morphFace. -/
noncomputable def morphBody (srcImageData targetImageData : ImageData)
    (srcLandmarks targetLandmarks : Landmarks) (alpha : ℚ) (out0 : ImageData)
    (isAnimal : Bool) (orc : Oracles) : Except Unit MorphResult :=
  let width := out0.width
  let height := out0.height
  if srcLandmarks.length < 400 then
    .ok ⟨⟨width, height, copyInto out0.data srcImageData.data⟩, some .insufficientLandmarks⟩
  else if targetLandmarks.length < 400 then
    .ok ⟨⟨width, height, copyInto out0.data srcImageData.data⟩, some .insufficientLandmarks⟩
  else
    let scaleX := (srcImageData.width : ℚ) / (targetImageData.width : ℚ)
    let scaleY := (srcImageData.height : ℚ) / (targetImageData.height : ℚ)
    let scaled := scaleLm targetLandmarks scaleX scaleY
    let kp := keyTargetPoints scaled
    let triangles := computeDelaunay (kp.map (fun ip => some ip.2)) (width : ℚ) (height : ℚ)
    let mts := mappedTriangles kp triangles srcLandmarks.length scaled.length
    let outInit := copyInto out0.data srcImageData.data
    match orc.scaledTarget with
    | none => .error ()
    | some scaledTargetData =>
      let warped0 : ImageData := ⟨width, height, List.replicate (4 * (width * height)) 0⟩
      let warped := mts.foldl (warpStep scaledTargetData srcLandmarks scaled) warped0
      match createFaceMask srcLandmarks orc.faceMask with
      | .error _ => .error ()
      | .ok none => .ok ⟨⟨width, height, outInit⟩, some .maskFailed⟩
      | .ok (some maskPx) =>
        let openness := detectMouthOpenness srcLandmarks
        match createMouthInteriorMask srcLandmarks openness orc.mouthRaw with
        | .error _ => .error ()
        | .ok mouthMask =>
          let corrected := colorCorrect srcImageData warped maskPx width height
          let numPix := out0.data.length / 4
          .ok ⟨⟨width, height,
            compositeData srcImageData warped corrected maskPx mouthMask alpha isAnimal numPix
              ++ outInit.drop (4 * numPix)⟩, none⟩

/-- morphFace from morph-engine.js. The try/catch: a thrown step lands in
the catch, which copies the source into the output; the err field models
which console.error diagnostic fired, none on success. -/
noncomputable def morphFace (srcImageData targetImageData : ImageData)
    (srcLandmarks targetLandmarks : Landmarks) (alpha : ℚ) (out0 : ImageData)
    (isAnimal : Bool) (orc : Oracles) : MorphResult :=
  match morphBody srcImageData targetImageData srcLandmarks targetLandmarks
      alpha out0 isAnimal orc with
  | .ok r => r
  | .error _ =>
    ⟨⟨out0.width, out0.height, copyInto out0.data srcImageData.data⟩, some .exception⟩

/-! ### Composite-step lemmas and claims C3 and C2 -/

theorem round_byte_range {x : ℝ} (h0 : 0 ≤ x) (h1 : x ≤ 255) :
    0 ≤ round x ∧ round x ≤ 255 := by
  rw [round_eq]
  constructor
  · exact Int.le_floor.2 (by push_cast; linarith)
  · rw [Int.floor_le_iff]
    push_cast
    linarith

theorem clampByteR_eq_round {x : ℝ} (h0 : 0 ≤ x) (h1 : x ≤ 255) :
    ((clampByteR x : ℕ) : ℤ) = round x := by
  rcases round_byte_range h0 h1 with ⟨hl, hu⟩
  rw [clampByteR, iMax, if_pos hl, iMin]
  split <;> omega

theorem blendFactor_bounds (isAnimal : Bool) (alpha mv : ℚ)
    (ha0 : 0 ≤ alpha) (ha1 : alpha ≤ 1) (hm0 : 0 ≤ mv) (hm1 : mv ≤ 1) :
    0 ≤ blendFactor isAnimal alpha mv ∧ blendFactor isAnimal alpha mv ≤ 1 := by
  have ha0R : (0 : ℝ) ≤ (alpha : ℝ) := by exact_mod_cast ha0
  have ha1R : (alpha : ℝ) ≤ 1 := by exact_mod_cast ha1
  have hm0R : (0 : ℝ) ≤ (mv : ℝ) := by exact_mod_cast hm0
  have hm1R : (mv : ℝ) ≤ 1 := by exact_mod_cast hm1
  rw [blendFactor]
  cases isAnimal with
  | true =>
    simp only [if_true]
    split
    · exact ⟨ha0R, ha1R⟩
    · norm_num
  | false =>
    simp only [Bool.false_eq_true, if_false]
    split
    · have hs0 : 0 ≤ Real.sqrt (mv : ℝ) := Real.sqrt_nonneg _
      have hs1 : Real.sqrt (mv : ℝ) ≤ 1 := by
        rw [show (1 : ℝ) = Real.sqrt 1 by rw [Real.sqrt_one]]
        exact Real.sqrt_le_sqrt hm1R
      exact ⟨mul_nonneg hs0 ha0R, by nlinarith⟩
    · exact ⟨mul_nonneg hm0R ha0R, by nlinarith⟩

theorem mouthFactor_nonneg (mm : Option (ℕ → ℕ)) (b : Bool) (p : ℕ) :
    0 ≤ mouthFactor mm b p := by
  cases mm <;> cases b <;> simp [mouthFactor] <;> positivity

theorem blend_byte_range {s c t : ℝ} (hs0 : 0 ≤ s) (hs1 : s ≤ 255)
    (hc0 : 0 ≤ c) (hc1 : c ≤ 255) (ht0 : 0 ≤ t) (ht1 : t ≤ 1) :
    0 ≤ s * (1 - t) + c * t ∧ s * (1 - t) + c * t ≤ 255 := by
  constructor <;> nlinarith

/-- C3: in the composite step of morphFace, for a pixel with hull-mask
fraction m = mask[i] / 255, the blend factor is alpha when is_animal and
m > 0.1, 0 when is_animal and m ≤ 0.1, sqrt(m) * alpha when alpha > 0.95
otherwise, and m * alpha in all remaining cases. -/
theorem c3_blend_factor (isAnimal : Bool) (alpha : ℚ) (v : ℕ) :
    (isAnimal = true → (v : ℚ) / 255 > 0.1 →
      blendFactor isAnimal alpha ((v : ℚ) / 255) = (alpha : ℝ)) ∧
    (isAnimal = true → ¬ ((v : ℚ) / 255 > 0.1) →
      blendFactor isAnimal alpha ((v : ℚ) / 255) = 0) ∧
    (isAnimal = false → alpha > 0.95 →
      blendFactor isAnimal alpha ((v : ℚ) / 255) =
        Real.sqrt (((v : ℚ) / 255 : ℚ) : ℝ) * (alpha : ℝ)) ∧
    (isAnimal = false → ¬ (alpha > 0.95) →
      blendFactor isAnimal alpha ((v : ℚ) / 255) =
        (((v : ℚ) / 255 : ℚ) : ℝ) * (alpha : ℝ)) := by
  refine ⟨?_, ?_, ?_, ?_⟩ <;> intro h1 h2 <;> subst h1 <;>
    simp [blendFactor, h2]

/-- Witness for C3 on the animal branch with a full mask byte. -/
theorem c3_blend_factor_witness :
    (((255 : ℕ) : ℚ) / 255 > 0.1) ∧
    blendFactor true (7 / 10) (((255 : ℕ) : ℚ) / 255) = ((7 / 10 : ℚ) : ℝ) := by
  have h : ((255 : ℕ) : ℚ) / 255 > 0.1 := by norm_num
  exact ⟨h, (c3_blend_factor true (7 / 10) 255).1 rfl h⟩

/-- C2 (amended): in the composite step of morphFace, for a pixel whose
warped alpha exceeds 0 and whose blend factor exceeds 0.01, each color
channel of the output equals round(morphed * (1 - mu) + src * mu) when
mu > 0.1, and round(morphed) otherwise, where morphed = src * (1 - beta)
+ corrected * beta and mu is the mouth-mask fraction (0 when the mask is
absent or is_animal). The frozen claim omits the mu > 0.1 gate. -/
theorem c2_composite_channels (srcData warped corrected : ImageData)
    (maskPx : ℕ → ℕ) (mouthMask : Option (ℕ → ℕ)) (alpha : ℚ) (isAnimal : Bool)
    (p ch : ℕ) (hch : ch < 3)
    (ha0 : 0 ≤ alpha) (ha1 : alpha ≤ 1) (hmask : maskPx p ≤ 255)
    (hmf1 : mouthFactor mouthMask isAnimal p ≤ 1)
    (hsrc : srcData.byte (4 * p + ch) ≤ 255)
    (hcor : corrected.byte (4 * p + ch) ≤ 255)
    (hW : warped.byte (4 * p + 3) > 0)
    (hbf : blendFactor isAnimal alpha ((maskPx p : ℚ) / 255) > 0.01) :
    ((compositePixel srcData warped corrected maskPx mouthMask alpha isAnimal p).getD ch 0 : ℤ)
      = if mouthFactor mouthMask isAnimal p > 0.1 then
          round (((srcData.byte (4 * p + ch) : ℝ) *
              (1 - blendFactor isAnimal alpha ((maskPx p : ℚ) / 255)) +
              (corrected.byte (4 * p + ch) : ℝ) *
              blendFactor isAnimal alpha ((maskPx p : ℚ) / 255)) *
              (1 - ((mouthFactor mouthMask isAnimal p : ℚ) : ℝ)) +
            (srcData.byte (4 * p + ch) : ℝ) *
              ((mouthFactor mouthMask isAnimal p : ℚ) : ℝ))
        else
          round ((srcData.byte (4 * p + ch) : ℝ) *
              (1 - blendFactor isAnimal alpha ((maskPx p : ℚ) / 255)) +
            (corrected.byte (4 * p + ch) : ℝ) *
              blendFactor isAnimal alpha ((maskPx p : ℚ) / 255)) := by
  have hm0 : (0 : ℚ) ≤ (maskPx p : ℚ) / 255 := by positivity
  have hm1 : (maskPx p : ℚ) / 255 ≤ 1 := by
    rw [div_le_one (by norm_num)]
    exact_mod_cast hmask
  rcases blendFactor_bounds isAnimal alpha _ ha0 ha1 hm0 hm1 with ⟨hb0, hb1⟩
  have hmf0 := mouthFactor_nonneg mouthMask isAnimal p
  have hs0 : (0 : ℝ) ≤ (srcData.byte (4 * p + ch) : ℝ) := by positivity
  have hs1 : (srcData.byte (4 * p + ch) : ℝ) ≤ 255 := by exact_mod_cast hsrc
  have hc0 : (0 : ℝ) ≤ (corrected.byte (4 * p + ch) : ℝ) := by positivity
  have hc1 : (corrected.byte (4 * p + ch) : ℝ) ≤ 255 := by exact_mod_cast hcor
  rcases blend_byte_range hs0 hs1 hc0 hc1 hb0 hb1 with ⟨hmor0, hmor1⟩
  have hmfR0 : (0 : ℝ) ≤ ((mouthFactor mouthMask isAnimal p : ℚ) : ℝ) := by
    exact_mod_cast hmf0
  have hmfR1 : ((mouthFactor mouthMask isAnimal p : ℚ) : ℝ) ≤ 1 := by
    exact_mod_cast hmf1
  rcases blend_byte_range hmor0 hmor1 hs0 hs1 hmfR0 hmfR1 with ⟨hout0, hout1⟩
  by_cases hmu : mouthFactor mouthMask isAnimal p > 0.1
  · interval_cases ch <;>
      simp only [compositePixel, List.getD_cons_zero, List.getD_cons_succ] <;>
      rw [if_pos ⟨hW, hbf⟩, if_pos hmu, if_pos hmu,
        clampByteR_eq_round hout0 hout1]
  · interval_cases ch <;>
      simp only [compositePixel, List.getD_cons_zero, List.getD_cons_succ] <;>
      rw [if_pos ⟨hW, hbf⟩, if_neg hmu, if_neg hmu,
        clampByteR_eq_round hmor0 hmor1]

/-- A one-pixel buffer with all bytes 255. -/
def pxFull : ImageData := ⟨1, 1, [255, 255, 255, 255]⟩

/-- A one-pixel opaque black buffer. -/
def pxDark : ImageData := ⟨1, 1, [0, 0, 0, 255]⟩

/-- A one-pixel mid-gray buffer. -/
def pxMid : ImageData := ⟨1, 1, [100, 100, 100, 100]⟩

/-- A one-pixel light buffer. -/
def pxHigh : ImageData := ⟨1, 1, [200, 200, 200, 255]⟩

/-- A full hull mask. -/
def maskFull : ℕ → ℕ := fun j => 255

/-- A faint mouth mask: 25/255 is inside (0, 0.1]. -/
def mouthLow : ℕ → ℕ := fun j => 25

/-- Witness for C2 at a concrete pixel with the mouth mask absent. -/
theorem c2_composite_channels_witness :
    ((compositePixel pxMid pxDark pxHigh maskFull none (1 / 2) false 0).getD 0 0 : ℤ)
      = 150 := by
  have hbf : blendFactor false (1 / 2) ((maskFull 0 : ℚ) / 255) > 0.01 := by
    rw [blendFactor]
    norm_num [maskFull]
  have h := c2_composite_channels pxMid pxDark pxHigh maskFull none (1 / 2) false 0 0
    (by norm_num) (by norm_num) (by norm_num) (by norm_num [maskFull])
    (by simp [mouthFactor]) (by decide) (by decide) (by decide) hbf
  rw [h, if_neg (by norm_num [mouthFactor])]
  have hbfval : blendFactor false (1 / 2) ((maskFull 0 : ℚ) / 255) = 1 / 2 := by
    rw [blendFactor]
    norm_num [maskFull]
  rw [hbfval]
  norm_num [pxMid, pxHigh, ImageData.byte, round_eq]

/-- Counterexample to C2 as frozen: a pixel with warped alpha over 0 and
blend factor 1/2 whose mouth fraction is 25/255, inside (0, 0.1]. The
code writes round(morphed) = 128, but the claimed unconditional formula
round(morphed * (1 - mu) + src * mu) gives 140. -/
theorem c2_composite_channels_cex :
    pxDark.byte (4 * 0 + 3) > 0 ∧
    blendFactor false (1 / 2) ((maskFull 0 : ℚ) / 255) > 0.01 ∧
    ((compositePixel pxFull pxDark pxDark maskFull (some mouthLow) (1 / 2) false 0).getD 0 0 : ℤ)
      ≠ round (((pxFull.byte (4 * 0 + 0) : ℝ) *
            (1 - blendFactor false (1 / 2) ((maskFull 0 : ℚ) / 255)) +
            (pxDark.byte (4 * 0 + 0) : ℝ) *
            blendFactor false (1 / 2) ((maskFull 0 : ℚ) / 255)) *
            (1 - ((mouthFactor (some mouthLow) false 0 : ℚ) : ℝ)) +
          (pxFull.byte (4 * 0 + 0) : ℝ) *
          ((mouthFactor (some mouthLow) false 0 : ℚ) : ℝ)) := by
  have hbf : blendFactor false (1 / 2) ((maskFull 0 : ℚ) / 255) > 0.01 := by
    rw [blendFactor]
    norm_num [maskFull]
  have hbfval : blendFactor false (1 / 2) ((maskFull 0 : ℚ) / 255) = 1 / 2 := by
    rw [blendFactor]
    norm_num [maskFull]
  have hmu : mouthFactor (some mouthLow) false 0 = 5 / 51 := by
    norm_num [mouthFactor, mouthLow]
  refine ⟨by decide, hbf, ?_⟩
  have hlhs : ((compositePixel pxFull pxDark pxDark maskFull (some mouthLow)
      (1 / 2) false 0).getD 0 0 : ℤ) = 128 := by
    simp only [compositePixel, List.getD_cons_zero]
    rw [if_pos ⟨by decide, hbf⟩, if_neg (by rw [hmu]; norm_num)]
    have hmor : ((pxFull.byte (4 * 0 + 0) : ℝ) *
        (1 - blendFactor false (1 / 2) ((maskFull 0 : ℚ) / 255)) +
        (pxDark.byte (4 * 0 + 0) : ℝ) *
        blendFactor false (1 / 2) ((maskFull 0 : ℚ) / 255)) = 127.5 := by
      rw [hbfval]
      norm_num [pxFull, pxDark, ImageData.byte]
    rw [hmor, clampByteR_eq_round (by norm_num) (by norm_num)]
    norm_num [round_eq]
  rw [hlhs, hbfval, hmu]
  norm_num [pxFull, pxDark, ImageData.byte, round_eq]

/-! ### Byte extraction from 4-byte pixel blocks -/

theorem flatMap_four_length (f : ℕ → List ℕ) (hf : ∀ i, (f i).length = 4)
    (n : ℕ) : ((List.range n).flatMap f).length = 4 * n := by
  induction n with
  | zero => simp
  | succ m ih =>
    rw [List.range_succ, List.flatMap_append, List.length_append, ih]
    simp [hf]
    omega

theorem flatMap_four_getD (f : ℕ → List ℕ) (hf : ∀ i, (f i).length = 4)
    (n p ch : ℕ) (hp : p < n) (hch : ch < 4) :
    ((List.range n).flatMap f).getD (4 * p + ch) 0 = (f p).getD ch 0 := by
  induction n with
  | zero => omega
  | succ m ih =>
    rw [List.range_succ, List.flatMap_append]
    rcases Nat.lt_or_ge p m with hpm | hpm
    · rw [List.getD_append]
      · exact ih hpm
      · rw [flatMap_four_length f hf m]
        omega
    · have hpe : p = m := by omega
      subst hpe
      rw [List.getD_append_right _ _ _ _ (by rw [flatMap_four_length f hf p]; omega)]
      rw [flatMap_four_length f hf p]
      have hidx : 4 * p + ch - 4 * p = ch := by omega
      rw [hidx]
      simp

/-- Bound every byte of a concrete buffer by bounding its entries. -/
theorem byte_le_of_all (img : ImageData) (hb : ∀ x ∈ img.data, x ≤ 255) :
    ∀ i, img.byte i ≤ 255 := by
  intro i
  rw [ImageData.byte, List.getD_eq_getElem?_getD]
  rcases hx : img.data[i]? with _ | x
  · simp
  · simp only [Option.getD_some]
    exact hb x (List.getElem?_mem hx)

/-- clampByteQ is the identity on byte values. -/
theorem clampByteQ_byte (b : ℕ) (hb : b ≤ 255) : clampByteQ ((b : ℚ)) = b := by
  rw [clampByteQ, round_natCast, iMax, if_pos (by omega : (0 : ℤ) ≤ (b : ℤ)), iMin]
  split <;> omega

/-! ### Claim C8: the color corrector is the identity when means agree -/

/-- C8: with equal per-channel means of source and warped over the masked
region (mask fraction above one half), every factor is 1 and colorCorrect
returns the warped bytes unchanged (alpha always preserved). -/
theorem c8_color_correct_identity (srcData targetData : ImageData)
    (maskPx : ℕ → ℕ) (w h : ℕ)
    (hbytes : ∀ i, targetData.byte i ≤ 255)
    (hR : chanSum srcData (maskedPixels maskPx w h) 0 /
        ((maskedPixels maskPx w h).length : ℚ) =
      chanSum targetData (maskedPixels maskPx w h) 0 /
        ((maskedPixels maskPx w h).length : ℚ))
    (hG : chanSum srcData (maskedPixels maskPx w h) 1 /
        ((maskedPixels maskPx w h).length : ℚ) =
      chanSum targetData (maskedPixels maskPx w h) 1 /
        ((maskedPixels maskPx w h).length : ℚ))
    (hB : chanSum srcData (maskedPixels maskPx w h) 2 /
        ((maskedPixels maskPx w h).length : ℚ) =
      chanSum targetData (maskedPixels maskPx w h) 2 /
        ((maskedPixels maskPx w h).length : ℚ)) :
    ∀ p < w * h, ∀ ch < 4,
      (colorCorrect srcData targetData maskPx w h).byte (4 * p + ch) =
        targetData.byte (4 * p + ch) := by
  intro p hp ch hch
  have hfac : ∀ img : ImageData, ∀ c : ℕ,
      chanSum srcData (maskedPixels maskPx w h) c /
        ((maskedPixels maskPx w h).length : ℚ) =
      chanSum img (maskedPixels maskPx w h) c /
        ((maskedPixels maskPx w h).length : ℚ) →
      (1 : ℚ) + 0.5 * (chanSum srcData (maskedPixels maskPx w h) c /
        ((maskedPixels maskPx w h).length : ℚ) -
        chanSum img (maskedPixels maskPx w h) c /
        ((maskedPixels maskPx w h).length : ℚ)) /
        qMax (chanSum img (maskedPixels maskPx w h) c /
        ((maskedPixels maskPx w h).length : ℚ)) 1 = 1 := by
    intro img c hc
    rw [hc]
    simp
  simp only [colorCorrect]
  split
  · rfl
  · rw [hfac targetData 0 hR, hfac targetData 1 hG, hfac targetData 2 hB]
    show ((List.range (w * h)).flatMap
        (correctedPixel targetData 1 1 1)).getD (4 * p + ch) 0 =
      targetData.byte (4 * p + ch)
    rw [flatMap_four_getD (correctedPixel targetData 1 1 1) (fun q => rfl)
      (w * h) p ch hp hch]
    rw [correctedPixel]
    interval_cases ch
    · rw [List.getD_cons_zero, mul_one]
      exact clampByteQ_byte _ (hbytes (4 * p))
    · rw [List.getD_cons_succ, List.getD_cons_zero, mul_one]
      exact clampByteQ_byte _ (hbytes (4 * p + 1))
    · rw [List.getD_cons_succ, List.getD_cons_succ, List.getD_cons_zero, mul_one]
      exact clampByteQ_byte _ (hbytes (4 * p + 2))
    · rw [List.getD_cons_succ, List.getD_cons_succ, List.getD_cons_succ,
        List.getD_cons_zero]

/-- Witness for C8: a one-pixel buffer corrected against itself, with a
full mask. -/
theorem c8_color_correct_identity_witness :
    (∀ i, pxHigh.byte i ≤ 255) ∧
    (∀ p < 1 * 1, ∀ ch < 4,
      (colorCorrect pxHigh pxHigh maskFull 1 1).byte (4 * p + ch) =
        pxHigh.byte (4 * p + ch)) := by
  have hb : ∀ i, pxHigh.byte i ≤ 255 := byte_le_of_all pxHigh (by decide)
  exact ⟨hb, c8_color_correct_identity pxHigh pxHigh maskFull 1 1 hb rfl rfl rfl⟩

/-! ### Claim C7: mouth openness -/

/-- C7 (amended): with inner-lip landmarks 13, 14, 78 and 308 present, the
openness equals clamp((v / h - 0.08) / 0.25, 0, 1) whenever the
horizontal width h = |lm308.x - lm78.x| is at least 1, and equals 0 when
h < 1; the frozen claim instead divides by max(h, 1), which differs for
h < 1. -/
theorem c7_mouth_openness (lm : Landmarks) (tl bl lc rc : Point)
    (h13 : lmGet lm 13 = some tl) (h14 : lmGet lm 14 = some bl)
    (h78 : lmGet lm 78 = some lc) (h308 : lmGet lm 308 = some rc) :
    (1 ≤ |rc.1 - lc.1| →
      detectMouthOpenness lm =
        max 0 (min 1 ((|bl.2 - tl.2| / |rc.1 - lc.1| - 0.08) / 0.25))) ∧
    (|rc.1 - lc.1| < 1 → detectMouthOpenness lm = 0) := by
  have hd : detectMouthOpenness lm =
      if qAbs (rc.1 - lc.1) < 1 then 0
      else qMax 0 (qMin 1 ((qAbs (bl.2 - tl.2) / qAbs (rc.1 - lc.1) - 0.08) / 0.25)) := by
    rw [detectMouthOpenness, h13, h14, h78, h308]
  constructor
  · intro hh
    rw [hd, if_neg (by rw [qAbs_eq_abs]; exact not_lt.2 hh), qMax_eq_max,
      qMin_eq_min, qAbs_eq_abs, qAbs_eq_abs]
  · intro hh
    rw [hd, if_pos (by rw [qAbs_eq_abs]; exact hh)]

/-- A landmark array realizing an open mouth with width 10. -/
def mouthLm : Landmarks :=
  ((((List.replicate 400 (none : Option Point)).set 13 (some (0, 0))).set 14
    (some (0, 2))).set 78 (some (0, 0))).set 308 (some (10, 0))

/-- Witness for C7 on a mouth of width 10 and opening 2. -/
theorem c7_mouth_openness_witness :
    lmGet mouthLm 13 = some (0, 0) ∧
    lmGet mouthLm 308 = some (10, 0) ∧
    (1 : ℚ) ≤ |(10 : ℚ) - 0| ∧
    detectMouthOpenness mouthLm =
      max 0 (min 1 ((|(2 : ℚ) - 0| / |(10 : ℚ) - 0| - 0.08) / 0.25)) := by
  refine ⟨by with_unfolding_all decide, by with_unfolding_all decide,
    by norm_num, ?_⟩
  exact (c7_mouth_openness mouthLm (0, 0) (0, 2) (0, 0) (10, 0)
    (by with_unfolding_all decide) (by with_unfolding_all decide)
    (by with_unfolding_all decide) (by with_unfolding_all decide)).1
    (by norm_num)

/-- A landmark array whose mouth width is 1/2, below the width guard. -/
def mouthLmNarrow : Landmarks :=
  ((((List.replicate 400 (none : Option Point)).set 13 (some (0, 0))).set 14
    (some (0, 1))).set 78 (some (0, 0))).set 308 (some (1 / 2, 0))

/-- Counterexample to C7 as frozen: with width 1/2 the source returns 0,
while the claimed formula with max(h, 1) = 1 gives openness 1. -/
theorem c7_mouth_openness_cex :
    lmGet mouthLmNarrow 13 = some (0, 0) ∧
    lmGet mouthLmNarrow 14 = some (0, 1) ∧
    lmGet mouthLmNarrow 78 = some (0, 0) ∧
    lmGet mouthLmNarrow 308 = some (1 / 2, 0) ∧
    detectMouthOpenness mouthLmNarrow = 0 ∧
    max 0 (min 1 ((|(1 : ℚ) - 0| / max |(1 / 2 : ℚ) - 0| 1 - 0.08) / 0.25)) = 1 ∧
    (0 : ℚ) ≠ 1 := by
  refine ⟨by with_unfolding_all decide, by with_unfolding_all decide,
    by with_unfolding_all decide, by with_unfolding_all decide,
    by with_unfolding_all decide, ?_, by norm_num⟩
  have h1 : |(1 : ℚ) - 0| = 1 := by norm_num
  have h2 : |(1 / 2 : ℚ) - 0| = 1 / 2 := by norm_num
  have h3 : max |(1 / 2 : ℚ) - 0| 1 = 1 := by
    rw [h2, max_eq_right]
    norm_num
  rw [h1, h3]
  norm_num [max_def, min_def]

/-! ### The landmark interpolator (editor source, interpolateLandmarks) -/

/-- The eight manually placed key points of the editor, in placement
order. -/
structure KeyPoints where
  leftEye : ℝ × ℝ
  rightEye : ℝ × ℝ
  nose : ℝ × ℝ
  mouthL : ℝ × ℝ
  mouthR : ℝ × ℝ
  chin : ℝ × ℝ
  leftCheek : ℝ × ℝ
  rightCheek : ℝ × ℝ

/-- interpolateRegion: one point of a ring of count points around a
center. -/
noncomputable def interpolateRegion (center : ℝ × ℝ) (radius : ℝ)
    (offset count : ℕ) : ℝ × ℝ :=
  let angle := ((offset : ℝ) / (count : ℝ)) * Real.pi * 2
  (center.1 + Real.cos angle * radius, center.2 + Real.sin angle * radius)

/-- generateInterpolatedPoint from the editor source, with the branches in
source order: face outline 10..152 first, then forehead, nose bridge,
mouth band, the two eye bands, and the 20-column grid default. -/
noncomputable def generateInterpolatedPoint (index : ℕ) (k : KeyPoints)
    (eyeCenter : ℝ × ℝ) (faceWidth faceHeight : ℝ) : ℝ × ℝ :=
  if 10 ≤ index ∧ index ≤ 152 then
    let t := ((index : ℝ) - 10) / (152 - 10)
    let angle := t * Real.pi
    (eyeCenter.1 + Real.cos (angle + Real.pi / 2) * faceWidth / 2,
     eyeCenter.2 + Real.sin (angle + Real.pi / 2) * faceHeight / 2)
  else if index < 10 then
    let t := (index : ℝ) / 10
    (k.leftCheek.1 + t * (k.rightCheek.1 - k.leftCheek.1),
     eyeCenter.2 - faceHeight * 0.3)
  else if 168 ≤ index ∧ index ≤ 175 then
    let t := ((index : ℝ) - 168) / 7
    (eyeCenter.1, eyeCenter.2 + t * (k.nose.2 - eyeCenter.2))
  else if 61 ≤ index ∧ index < 291 then
    let mcx := (k.mouthL.1 + k.mouthR.1) / 2
    let mcy := (k.mouthL.2 + k.mouthR.2) / 2
    let mouthWidth := |k.mouthR.1 - k.mouthL.1|
    let t := ((index : ℝ) - 61) / (291 - 61)
    (mcx + (t - 0.5) * mouthWidth,
     mcy + Real.sin (t * Real.pi * 2) * faceHeight * 0.05)
  else if 33 ≤ index ∧ index < 133 then
    let t := ((index : ℝ) - 33) / 100
    let ew := |k.rightEye.1 - k.leftEye.1| * 0.3
    (k.leftEye.1 + (t - 0.5) * ew,
     k.leftEye.2 + Real.sin (t * Real.pi * 2) * ew * 0.3)
  else if 263 ≤ index ∧ index < 362 then
    let t := ((index : ℝ) - 263) / 100
    let ew := |k.rightEye.1 - k.leftEye.1| * 0.3
    (k.rightEye.1 + (t - 0.5) * ew,
     k.rightEye.2 + Real.sin (t * Real.pi * 2) * ew * 0.3)
  else
    let row := index / 20
    let col := index % 20
    (k.leftCheek.1 + ((col : ℝ) / 20) * faceWidth,
     eyeCenter.2 - faceHeight * 0.4 + ((row : ℝ) / 24) * faceHeight)

/-- interpolateLandmarks from the editor source: 478 points, each rounded
to integers. The placed-point count check is user-interface level; the
embedding takes the eight points directly. -/
noncomputable def interpolateLandmarks (k : KeyPoints) : List (ℤ × ℤ) :=
  let eyeCenter : ℝ × ℝ :=
    ((k.leftEye.1 + k.rightEye.1) / 2, (k.leftEye.2 + k.rightEye.2) / 2)
  let eyeWidth := |k.rightEye.1 - k.leftEye.1|
  let faceWidth := |k.rightCheek.1 - k.leftCheek.1|
  let faceHeight := |k.chin.2 - eyeCenter.2| * 2
  (List.range 478).map (fun i =>
    let point : ℝ × ℝ :=
      if i = 33 ∨ (33 ≤ i ∧ i ≤ 38) then
        interpolateRegion k.leftEye (eyeWidth * 0.15) (i - 33) 6
      else if i = 263 ∨ (263 ≤ i ∧ i ≤ 268) then
        interpolateRegion k.rightEye (eyeWidth * 0.15) (i - 263) 6
      else if i = 1 ∨ (1 ≤ i ∧ i ≤ 5) then
        interpolateRegion k.nose (faceWidth * 0.1) (i - 1) 5
      else if i = 61 ∨ (61 ≤ i ∧ i ≤ 67) then
        interpolateRegion k.mouthL (faceWidth * 0.05) (i - 61) 7
      else if i = 291 ∨ (291 ≤ i ∧ i ≤ 297) then
        interpolateRegion k.mouthR (faceWidth * 0.05) (i - 291) 7
      else if i = 152 then k.chin
      else if i = 234 then k.leftCheek
      else if i = 454 then k.rightCheek
      else generateInterpolatedPoint i k eyeCenter faceWidth faceHeight
    (round point.1, round point.2))

/-- C6 (amended): the interpolator returns exactly 478 points with integer
coordinates (its output type), and the points at indices 152, 234 and
454 are the componentwise-rounded chin, left cheek and right cheek, so
they equal the inputs exactly only when those are integral. -/
theorem c6_interpolator (k : KeyPoints) :
    (interpolateLandmarks k).length = 478 ∧
    (interpolateLandmarks k)[152]? = some (round k.chin.1, round k.chin.2) ∧
    (interpolateLandmarks k)[234]? =
      some (round k.leftCheek.1, round k.leftCheek.2) ∧
    (interpolateLandmarks k)[454]? =
      some (round k.rightCheek.1, round k.rightCheek.2) := by
  refine ⟨by simp [interpolateLandmarks], ?_, ?_, ?_⟩ <;>
  · rw [interpolateLandmarks]
    rw [List.getElem?_map, List.getElem?_range (by norm_num)]
    norm_num

/-- Key points with a chin at x = 1/2, not on the integer grid. -/
noncomputable def keyCex : KeyPoints :=
  ⟨(0, 0), (10, 0), (5, 5), (3, 8), (7, 8), (1 / 2, 0), (0, 5), (10, 5)⟩

/-- Counterexample to C6 as frozen: with chin (1/2, 0) the interpolator
returns (1, 0) at index 152, which differs from the input chin. -/
theorem c6_interpolator_cex :
    (interpolateLandmarks keyCex)[152]? = some (1, 0) ∧
    ¬ ((((1 : ℤ) : ℝ), ((0 : ℤ) : ℝ)) = keyCex.chin) := by
  constructor
  · rw [interpolateLandmarks]
    rw [List.getElem?_map, List.getElem?_range (by norm_num)]
    norm_num [keyCex, round_eq]
  · norm_num [keyCex]

/-! ### Head rotation (app source, calculateHeadRotation) -/

/-- Math.atan2(y, x), via the complex argument; agrees with the JS builtin
on every non-NaN input including x = 0 and atan2(0, x). -/
noncomputable def atan2 (y x : ℝ) : ℝ := Complex.arg ⟨x, y⟩

/-- The estimate returned by calculateHeadRotation. -/
structure Rotation where
  yaw : ℝ
  roll : ℝ
  pitch : ℝ

/-- calculateHeadRotation from the app source: zero rotation when an eye,
nose-tip, chin or forehead landmark is missing; a thrown TypeError
(error) when the guard passes but a cheek landmark is absent, since the
yaw computation dereferences the cheeks unguarded; otherwise the
yaw/roll/pitch estimate. A degenerate face (zero denominator) yields 0
in the model where JS produces a non-finite number. -/
noncomputable def calculateHeadRotation (lm : Landmarks) :
    Except Unit Rotation :=
  match lmGet lm 33, lmGet lm 263, lmGet lm 1, lmGet lm 152, lmGet lm 10 with
  | some leftEye, some rightEye, some noseTip, some chin, some forehead =>
    match lmGet lm 234, lmGet lm 454 with
    | some leftCheek, some rightCheek =>
      let eyeDeltaX : ℝ := (rightEye.1 : ℝ) - (leftEye.1 : ℝ)
      let eyeDeltaY : ℝ := (rightEye.2 : ℝ) - (leftEye.2 : ℝ)
      let roll := atan2 eyeDeltaY eyeDeltaX
      let noseToLeft := Real.sqrt (((noseTip.1 : ℝ) - (leftCheek.1 : ℝ)) ^ 2 +
        ((noseTip.2 : ℝ) - (leftCheek.2 : ℝ)) ^ 2)
      let noseToRight := Real.sqrt (((noseTip.1 : ℝ) - (rightCheek.1 : ℝ)) ^ 2 +
        ((noseTip.2 : ℝ) - (rightCheek.2 : ℝ)) ^ 2)
      let fw := noseToLeft + noseToRight
      let yaw := ((noseToLeft - noseToRight) / fw) * Real.pi * 0.5
      let eyeCenterY := ((leftEye.2 : ℝ) + (rightEye.2 : ℝ)) / 2
      let verticalFaceHeight := (chin.2 : ℝ) - (forehead.2 : ℝ)
      let noseYRelative := ((noseTip.2 : ℝ) - eyeCenterY) / verticalFaceHeight
      let pitch := (noseYRelative - 0.3) * Real.pi * 0.5
      .ok ⟨yaw, roll, pitch⟩
    | _, _ => .error ()
  | _, _, _, _, _ => .ok ⟨0, 0, 0⟩

/-- The roll component of a rotation outcome (0 for the thrown case). -/
def rollOf (e : Except Unit Rotation) : ℝ :=
  match e with
  | .ok r => r.roll
  | .error _ => 0

theorem atan2_zero_nonneg (x : ℝ) (hx : 0 ≤ x) : atan2 0 x = 0 := by
  rw [atan2]
  have hh : (⟨x, 0⟩ : ℂ) = (x : ℂ) := rfl
  rw [hh]
  exact Complex.arg_ofReal_of_nonneg hx

theorem atan2_zero_neg_one : atan2 0 (-1) = Real.pi := by
  rw [atan2]
  have hh : (⟨-1, 0⟩ : ℂ) = (-1 : ℂ) := by
    apply Complex.ext <;> simp
  rw [hh]
  exact Complex.arg_neg_one

/-- With every anchor present, the roll component is the atan2 of the eye
deltas. -/
theorem rollOf_eq_atan2 (lm : Landmarks) (le re nt ch fh lc rc : Point)
    (h33 : lmGet lm 33 = some le) (h263 : lmGet lm 263 = some re)
    (h1 : lmGet lm 1 = some nt) (h152 : lmGet lm 152 = some ch)
    (h10 : lmGet lm 10 = some fh) (h234 : lmGet lm 234 = some lc)
    (h454 : lmGet lm 454 = some rc) :
    rollOf (calculateHeadRotation lm) =
      atan2 ((re.2 : ℝ) - (le.2 : ℝ)) ((re.1 : ℝ) - (le.1 : ℝ)) := by
  rw [calculateHeadRotation, h33, h263, h1, h152, h10, h234, h454]
  rfl

/-- C9 (amended): with all anchors present, the head-pose roll equals
atan2(lm263.y - lm33.y, lm263.x - lm33.x); the roll is 0 whenever
lm33.y = lm263.y and lm33.x ≤ lm263.x. With lm33.x > lm263.x and equal
y the roll is pi (see the counterexample), so the frozen unconditional
"roll equals 0 whenever lm33.y = lm263.y" needs the x-order side
condition. -/
theorem c9_head_roll (lm : Landmarks) (le re nt ch fh lc rc : Point)
    (h33 : lmGet lm 33 = some le) (h263 : lmGet lm 263 = some re)
    (h1 : lmGet lm 1 = some nt) (h152 : lmGet lm 152 = some ch)
    (h10 : lmGet lm 10 = some fh) (h234 : lmGet lm 234 = some lc)
    (h454 : lmGet lm 454 = some rc) :
    rollOf (calculateHeadRotation lm) =
      atan2 ((re.2 : ℝ) - (le.2 : ℝ)) ((re.1 : ℝ) - (le.1 : ℝ)) ∧
    (le.2 = re.2 → le.1 ≤ re.1 → rollOf (calculateHeadRotation lm) = 0) := by
  have hr := rollOf_eq_atan2 lm le re nt ch fh lc rc h33 h263 h1 h152 h10 h234 h454
  refine ⟨hr, ?_⟩
  intro hyy hxx
  rw [hr, hyy, sub_self]
  apply atan2_zero_nonneg
  rw [sub_nonneg]
  exact_mod_cast hxx

/-- A landmark array with level eyes in the usual order (left eye to the
left of the right eye). -/
def rollLmLevel : Landmarks :=
  (((((((List.replicate 455 (none : Option Point)).set 33 (some (0, 0))).set 263
    (some (1, 0))).set 1 (some (0, 0))).set 152 (some (0, 10))).set 10
    (some (0, 0))).set 234 (some (3, 4))).set 454 (some (-3, 4))

/-- Witness for C9: level eyes in the usual order give roll 0. -/
theorem c9_head_roll_witness :
    lmGet rollLmLevel 33 = some (0, 0) ∧
    lmGet rollLmLevel 263 = some (1, 0) ∧
    rollOf (calculateHeadRotation rollLmLevel) = 0 := by
  have e33 : lmGet rollLmLevel 33 = some (0, 0) := by with_unfolding_all decide
  have e263 : lmGet rollLmLevel 263 = some (1, 0) := by with_unfolding_all decide
  refine ⟨e33, e263, ?_⟩
  exact (c9_head_roll rollLmLevel (0, 0) (1, 0) (0, 0) (0, 10) (0, 0) (3, 4) (-3, 4)
    e33 e263 (by with_unfolding_all decide) (by with_unfolding_all decide)
    (by with_unfolding_all decide) (by with_unfolding_all decide)
    (by with_unfolding_all decide)).2 rfl (by norm_num)

/-- A landmark array with level eyes but the left-eye anchor to the right
of the right-eye anchor. -/
def rollLmFlip : Landmarks :=
  (((((((List.replicate 455 (none : Option Point)).set 33 (some (1, 0))).set 263
    (some (0, 0))).set 1 (some (0, 0))).set 152 (some (0, 10))).set 10
    (some (0, 0))).set 234 (some (3, 4))).set 454 (some (-3, 4))

/-- Counterexample to the frozen C9 clause "roll equals 0 whenever
lm33.y = lm263.y": with lm33 = (1, 0) and lm263 = (0, 0) the anchors are
present, the y coordinates agree, and the roll is atan2(0, -1) = pi. -/
theorem c9_head_roll_cex :
    lmGet rollLmFlip 33 = some (1, 0) ∧
    lmGet rollLmFlip 263 = some (0, 0) ∧
    rollOf (calculateHeadRotation rollLmFlip) = Real.pi ∧
    Real.pi ≠ 0 := by
  have e33 : lmGet rollLmFlip 33 = some (1, 0) := by with_unfolding_all decide
  have e263 : lmGet rollLmFlip 263 = some (0, 0) := by with_unfolding_all decide
  refine ⟨e33, e263, ?_, Real.pi_ne_zero⟩
  have hr := rollOf_eq_atan2 rollLmFlip (1, 0) (0, 0) (0, 0) (0, 10) (0, 0) (3, 4) (-3, 4)
    e33 e263 (by with_unfolding_all decide) (by with_unfolding_all decide)
    (by with_unfolding_all decide) (by with_unfolding_all decide)
    (by with_unfolding_all decide)
  rw [hr]
  rw [show ((((0, 0) : Point).2 : ℝ) - (((1, 0) : Point).2 : ℝ)) = 0 by norm_num]
  rw [show ((((0, 0) : Point).1 : ℝ) - (((1, 0) : Point).1 : ℝ)) = -1 by norm_num]
  exact atan2_zero_neg_one

/-! ### morphFace-level lemmas for claims C1, C4 and C10 -/

theorem copyInto_length (dst src : List ℕ) :
    (copyInto dst src).length = dst.length := by
  rw [copyInto]
  simp

theorem copyInto_eq_src (dst src : List ℕ) (h : dst.length = src.length) :
    copyInto dst src = src := by
  apply List.ext_getElem
  · rw [copyInto_length, h]
  · intro i h1 h2
    simp only [copyInto, List.getElem_map, List.getElem_range]
    rw [if_pos (by omega)]
    rw [List.getD_eq_getElem _ _ h2]

theorem compositePixel_length (srcData warped corrected : ImageData)
    (maskPx : ℕ → ℕ) (mouthMask : Option (ℕ → ℕ)) (alpha : ℚ)
    (isAnimal : Bool) (p : ℕ) :
    (compositePixel srcData warped corrected maskPx mouthMask alpha
      isAnimal p).length = 4 := rfl

theorem compositeData_length (srcData warped corrected : ImageData)
    (maskPx : ℕ → ℕ) (mouthMask : Option (ℕ → ℕ)) (alpha : ℚ)
    (isAnimal : Bool) (n : ℕ) :
    (compositeData srcData warped corrected maskPx mouthMask alpha
      isAnimal n).length = 4 * n :=
  flatMap_four_length _
    (fun i => compositePixel_length srcData warped corrected maskPx mouthMask
      alpha isAnimal i) n

/-- With alpha 0 the blend factor vanishes in every branch. -/
theorem blendFactor_alpha_zero (isAnimal : Bool) (mv : ℚ) :
    blendFactor isAnimal 0 mv = 0 := by
  rw [blendFactor]
  cases isAnimal
  · norm_num
  · simp only [if_true]
    split <;> norm_num

/-- With alpha 0 the composite writes the source RGB bytes and alpha
255. -/
theorem compositePixel_alpha_zero (srcData warped corrected : ImageData)
    (maskPx : ℕ → ℕ) (mouthMask : Option (ℕ → ℕ)) (isAnimal : Bool) (p : ℕ) :
    compositePixel srcData warped corrected maskPx mouthMask 0 isAnimal p =
      [srcData.byte (4 * p), srcData.byte (4 * p + 1),
       srcData.byte (4 * p + 2), 255] := by
  have h001 : ((0 : ℝ) > 0.01) = False := eq_false (by norm_num)
  simp only [compositePixel, blendFactor_alpha_zero, h001, and_false,
    if_false, Nat.add_zero]

/-- Reading a channel of a composite-branch output buffer. -/
theorem compositeBranch_byte (srcData warped corrected : ImageData)
    (maskPx : ℕ → ℕ) (mouthMask : Option (ℕ → ℕ)) (alpha : ℚ)
    (isAnimal : Bool) (L : List ℕ) (numPix p ch : ℕ)
    (hp : p < numPix) (hch : ch < 4) :
    (compositeData srcData warped corrected maskPx mouthMask alpha isAnimal
        numPix ++ L).getD (4 * p + ch) 0 =
      (compositePixel srcData warped corrected maskPx mouthMask alpha
        isAnimal p).getD ch 0 := by
  rw [List.getD_append]
  · rw [compositeData, flatMap_four_getD _
      (fun i => compositePixel_length srcData warped corrected maskPx mouthMask
        alpha isAnimal i) numPix p ch hp hch]
  · rw [compositeData_length]
    omega

/-- Every run of the try block ends in one of three shapes: an early
source copy with a diagnostic, a thrown browser call, or the full
composite output. -/
theorem morphBody_cases (srcImageData targetImageData : ImageData)
    (srcLandmarks targetLandmarks : Landmarks) (alpha : ℚ) (out0 : ImageData)
    (isAnimal : Bool) (orc : Oracles) :
    (∃ e, morphBody srcImageData targetImageData srcLandmarks targetLandmarks
        alpha out0 isAnimal orc =
      .ok ⟨⟨out0.width, out0.height, copyInto out0.data srcImageData.data⟩, e⟩) ∨
    (morphBody srcImageData targetImageData srcLandmarks targetLandmarks
        alpha out0 isAnimal orc = .error ()) ∨
    (∃ warped corrected maskPx mouthMask,
      morphBody srcImageData targetImageData srcLandmarks targetLandmarks
          alpha out0 isAnimal orc =
        .ok ⟨⟨out0.width, out0.height,
          compositeData srcImageData warped corrected maskPx mouthMask alpha
            isAnimal (out0.data.length / 4) ++
          (copyInto out0.data srcImageData.data).drop
            (4 * (out0.data.length / 4))⟩, none⟩) := by
  simp only [morphBody]
  split
  · exact Or.inl ⟨some MorphError.insufficientLandmarks, rfl⟩
  split
  · exact Or.inl ⟨some MorphError.insufficientLandmarks, rfl⟩
  split
  · exact Or.inr (Or.inl rfl)
  split
  · exact Or.inr (Or.inl rfl)
  · exact Or.inl ⟨some MorphError.maskFailed, rfl⟩
  · split
    · exact Or.inr (Or.inl rfl)
    · exact Or.inr (Or.inr ⟨_, _, _, _, rfl⟩)

/-- C10: morphFace never propagates an exception: any thrown internal step
lands in the catch, which copies the source into the output; after every
call the output buffer is fully written, equal either to the source
bytes or to the composite morph result. -/
theorem c10_catch_copies (srcImageData targetImageData : ImageData)
    (srcLandmarks targetLandmarks : Landmarks) (alpha : ℚ) (out0 : ImageData)
    (isAnimal : Bool) (orc : Oracles)
    (hlen : out0.data.length = srcImageData.data.length) :
    ((morphFace srcImageData targetImageData srcLandmarks targetLandmarks
        alpha out0 isAnimal orc).out.data.length = out0.data.length) ∧
    ((morphFace srcImageData targetImageData srcLandmarks targetLandmarks
        alpha out0 isAnimal orc).out.data = srcImageData.data ∨
      ∃ warped corrected maskPx mouthMask,
        (morphFace srcImageData targetImageData srcLandmarks targetLandmarks
          alpha out0 isAnimal orc).out.data =
          compositeData srcImageData warped corrected maskPx mouthMask alpha
            isAnimal (out0.data.length / 4) ++
          (copyInto out0.data srcImageData.data).drop
            (4 * (out0.data.length / 4))) := by
  rcases morphBody_cases srcImageData targetImageData srcLandmarks
      targetLandmarks alpha out0 isAnimal orc with ⟨e, he⟩ | he |
      ⟨wa, co, mk, mm, he⟩
  · have hout : morphFace srcImageData targetImageData srcLandmarks
        targetLandmarks alpha out0 isAnimal orc =
        ⟨⟨out0.width, out0.height, copyInto out0.data srcImageData.data⟩, e⟩ := by
      rw [morphFace, he]
    rw [hout]
    refine ⟨?_, Or.inl (copyInto_eq_src _ _ hlen)⟩
    exact copyInto_length _ _
  · have hout : morphFace srcImageData targetImageData srcLandmarks
        targetLandmarks alpha out0 isAnimal orc =
        ⟨⟨out0.width, out0.height, copyInto out0.data srcImageData.data⟩,
          some MorphError.exception⟩ := by
      rw [morphFace, he]
    rw [hout]
    refine ⟨?_, Or.inl (copyInto_eq_src _ _ hlen)⟩
    exact copyInto_length _ _
  · have hout : morphFace srcImageData targetImageData srcLandmarks
        targetLandmarks alpha out0 isAnimal orc =
        ⟨⟨out0.width, out0.height,
          compositeData srcImageData wa co mk mm alpha isAnimal
            (out0.data.length / 4) ++
          (copyInto out0.data srcImageData.data).drop
            (4 * (out0.data.length / 4))⟩, none⟩ := by
      rw [morphFace, he]
    rw [hout]
    constructor
    · rw [List.length_append, compositeData_length, List.length_drop,
        copyInto_length]
      omega
    · exact Or.inr ⟨wa, co, mk, mm, rfl⟩

/-- Witness for C10 on concrete one-pixel buffers. -/
theorem c10_catch_copies_witness :
    ((⟨1, 1, [0, 0, 0, 0]⟩ : ImageData).data.length = pxMid.data.length) ∧
    ((morphFace pxMid pxDark [] [] (1 / 2) ⟨1, 1, [0, 0, 0, 0]⟩ false
        ⟨none, none, none⟩).out.data.length =
      (⟨1, 1, [0, 0, 0, 0]⟩ : ImageData).data.length) ∧
    ((morphFace pxMid pxDark [] [] (1 / 2) ⟨1, 1, [0, 0, 0, 0]⟩ false
        ⟨none, none, none⟩).out.data = pxMid.data ∨
      ∃ warped corrected maskPx mouthMask,
        (morphFace pxMid pxDark [] [] (1 / 2) ⟨1, 1, [0, 0, 0, 0]⟩ false
          ⟨none, none, none⟩).out.data =
          compositeData pxMid warped corrected maskPx mouthMask (1 / 2) false
            ((⟨1, 1, [0, 0, 0, 0]⟩ : ImageData).data.length / 4) ++
          (copyInto (⟨1, 1, [0, 0, 0, 0]⟩ : ImageData).data pxMid.data).drop
            (4 * ((⟨1, 1, [0, 0, 0, 0]⟩ : ImageData).data.length / 4))) := by
  have h := c10_catch_copies pxMid pxDark [] [] (1 / 2) ⟨1, 1, [0, 0, 0, 0]⟩
    false ⟨none, none, none⟩ (by decide)
  exact ⟨by decide, h.1, h.2⟩

/-- C4 (amended): when either landmark array has length below 400, the
engine copies the source into the output byte for byte, raises the
insufficient-landmarks diagnostic (the console.error plus early return,
modelled as the err status) and performs no morphing. The frozen claim
says "fewer than 400 valid entries"; the source tests the array length,
null entries included. -/
theorem c4_insufficient_landmarks (srcImageData targetImageData : ImageData)
    (srcLandmarks targetLandmarks : Landmarks) (alpha : ℚ) (out0 : ImageData)
    (isAnimal : Bool) (orc : Oracles)
    (hshort : srcLandmarks.length < 400 ∨ targetLandmarks.length < 400)
    (hlen : out0.data.length = srcImageData.data.length) :
    (morphFace srcImageData targetImageData srcLandmarks targetLandmarks
        alpha out0 isAnimal orc).out.data = srcImageData.data ∧
    (morphFace srcImageData targetImageData srcLandmarks targetLandmarks
        alpha out0 isAnimal orc).err =
      some MorphError.insufficientLandmarks := by
  have hb : morphBody srcImageData targetImageData srcLandmarks
      targetLandmarks alpha out0 isAnimal orc =
      .ok ⟨⟨out0.width, out0.height, copyInto out0.data srcImageData.data⟩,
        some MorphError.insufficientLandmarks⟩ := by
    by_cases hs : srcLandmarks.length < 400
    · simp only [morphBody]
      rw [if_pos hs]
    · have ht : targetLandmarks.length < 400 := by
        rcases hshort with hshort | hshort
        · exact absurd hshort hs
        · exact hshort
      simp only [morphBody]
      rw [if_neg hs, if_pos ht]
  have hout : morphFace srcImageData targetImageData srcLandmarks
      targetLandmarks alpha out0 isAnimal orc =
      ⟨⟨out0.width, out0.height, copyInto out0.data srcImageData.data⟩,
        some MorphError.insufficientLandmarks⟩ := by
    rw [morphFace, hb]
  rw [hout]
  exact ⟨copyInto_eq_src _ _ hlen, rfl⟩

/-- Witness for C4 on empty landmark arrays. -/
theorem c4_insufficient_landmarks_witness :
    (([] : Landmarks).length < 400 ∨ ([] : Landmarks).length < 400) ∧
    (morphFace pxMid pxDark [] [] (1 / 2) ⟨1, 1, [0, 0, 0, 0]⟩ false
        ⟨none, none, none⟩).out.data = pxMid.data ∧
    (morphFace pxMid pxDark [] [] (1 / 2) ⟨1, 1, [0, 0, 0, 0]⟩ false
        ⟨none, none, none⟩).err = some MorphError.insufficientLandmarks := by
  have h := c4_insufficient_landmarks pxMid pxDark [] [] (1 / 2)
    ⟨1, 1, [0, 0, 0, 0]⟩ false ⟨none, none, none⟩ (Or.inl (by decide))
    (by decide)
  exact ⟨Or.inl (by decide), h.1, h.2⟩

/-- C1 (amended): with alpha 0 and passing validation, every RGB byte of
the output equals the source byte, and every alpha byte is either 255
(when the composite loop runs) or the source alpha byte (on the early
copy paths); hence out = src byte for byte exactly when the source alpha
plane is all 255. The frozen claim asserts equality of all four
channels, but the composite loop writes alpha 255 unconditionally. -/
theorem c1_alpha_zero (srcImageData targetImageData : ImageData)
    (srcLandmarks targetLandmarks : Landmarks) (out0 : ImageData)
    (isAnimal : Bool) (orc : Oracles)
    (hsrc : 400 ≤ srcLandmarks.length) (htgt : 400 ≤ targetLandmarks.length)
    (hlen : out0.data.length = srcImageData.data.length) :
    ∀ p, 4 * p + 3 < out0.data.length →
      ((morphFace srcImageData targetImageData srcLandmarks targetLandmarks 0
          out0 isAnimal orc).out.byte (4 * p) = srcImageData.byte (4 * p) ∧
       (morphFace srcImageData targetImageData srcLandmarks targetLandmarks 0
          out0 isAnimal orc).out.byte (4 * p + 1) =
            srcImageData.byte (4 * p + 1) ∧
       (morphFace srcImageData targetImageData srcLandmarks targetLandmarks 0
          out0 isAnimal orc).out.byte (4 * p + 2) =
            srcImageData.byte (4 * p + 2)) ∧
      ((morphFace srcImageData targetImageData srcLandmarks targetLandmarks 0
          out0 isAnimal orc).out.byte (4 * p + 3) = 255 ∨
       (morphFace srcImageData targetImageData srcLandmarks targetLandmarks 0
          out0 isAnimal orc).out.byte (4 * p + 3) =
            srcImageData.byte (4 * p + 3)) := by
  intro p hp
  rcases morphBody_cases srcImageData targetImageData srcLandmarks
      targetLandmarks 0 out0 isAnimal orc with ⟨e, he⟩ | he |
      ⟨wa, co, mk, mm, he⟩
  · have hout : morphFace srcImageData targetImageData srcLandmarks
        targetLandmarks 0 out0 isAnimal orc =
        ⟨⟨out0.width, out0.height, copyInto out0.data srcImageData.data⟩, e⟩ := by
      rw [morphFace, he]
    simp only [hout, ImageData.byte,
      copyInto_eq_src out0.data srcImageData.data hlen]
    exact ⟨⟨trivial, trivial, trivial⟩, Or.inr trivial⟩
  · have hout : morphFace srcImageData targetImageData srcLandmarks
        targetLandmarks 0 out0 isAnimal orc =
        ⟨⟨out0.width, out0.height, copyInto out0.data srcImageData.data⟩,
          some MorphError.exception⟩ := by
      rw [morphFace, he]
    simp only [hout, ImageData.byte,
      copyInto_eq_src out0.data srcImageData.data hlen]
    exact ⟨⟨trivial, trivial, trivial⟩, Or.inr trivial⟩
  · have hout : morphFace srcImageData targetImageData srcLandmarks
        targetLandmarks 0 out0 isAnimal orc =
        ⟨⟨out0.width, out0.height,
          compositeData srcImageData wa co mk mm 0 isAnimal
            (out0.data.length / 4) ++
          (copyInto out0.data srcImageData.data).drop
            (4 * (out0.data.length / 4))⟩, none⟩ := by
      rw [morphFace, he]
    have hp4 : p < out0.data.length / 4 := by omega
    have hbyte : ∀ ch, ch < 4 →
        (morphFace srcImageData targetImageData srcLandmarks targetLandmarks 0
          out0 isAnimal orc).out.byte (4 * p + ch) =
        (compositePixel srcImageData wa co mk mm 0 isAnimal p).getD ch 0 := by
      intro ch hch
      rw [hout]
      simp only [ImageData.byte]
      exact compositeBranch_byte srcImageData wa co mk mm 0 isAnimal _ _ p ch
        hp4 hch
    refine ⟨⟨?_, ?_, ?_⟩, Or.inl ?_⟩
    · show (morphFace srcImageData targetImageData srcLandmarks targetLandmarks
        0 out0 isAnimal orc).out.byte (4 * p + 0) =
        srcImageData.byte (4 * p + 0)
      rw [hbyte 0 (by omega), compositePixel_alpha_zero]
      rfl
    · rw [hbyte 1 (by omega), compositePixel_alpha_zero]
      rfl
    · rw [hbyte 2 (by omega), compositePixel_alpha_zero]
      rfl
    · rw [hbyte 3 (by omega), compositePixel_alpha_zero]
      rfl

set_option maxRecDepth 10000 in
/-- Witness for C1 on one-pixel buffers with 400-entry landmark arrays. -/
theorem c1_alpha_zero_witness :
    400 ≤ (List.replicate 400 (none : Option Point)).length ∧
    4 * 0 + 3 < (⟨1, 1, [0, 0, 0, 0]⟩ : ImageData).data.length ∧
    (((morphFace pxMid pxDark (List.replicate 400 none)
          (List.replicate 400 none) 0 ⟨1, 1, [0, 0, 0, 0]⟩ false
          ⟨none, none, none⟩).out.byte (4 * 0) = pxMid.byte (4 * 0) ∧
      (morphFace pxMid pxDark (List.replicate 400 none)
          (List.replicate 400 none) 0 ⟨1, 1, [0, 0, 0, 0]⟩ false
          ⟨none, none, none⟩).out.byte (4 * 0 + 1) = pxMid.byte (4 * 0 + 1) ∧
      (morphFace pxMid pxDark (List.replicate 400 none)
          (List.replicate 400 none) 0 ⟨1, 1, [0, 0, 0, 0]⟩ false
          ⟨none, none, none⟩).out.byte (4 * 0 + 2) = pxMid.byte (4 * 0 + 2)) ∧
     ((morphFace pxMid pxDark (List.replicate 400 none)
          (List.replicate 400 none) 0 ⟨1, 1, [0, 0, 0, 0]⟩ false
          ⟨none, none, none⟩).out.byte (4 * 0 + 3) = 255 ∨
      (morphFace pxMid pxDark (List.replicate 400 none)
          (List.replicate 400 none) 0 ⟨1, 1, [0, 0, 0, 0]⟩ false
          ⟨none, none, none⟩).out.byte (4 * 0 + 3) = pxMid.byte (4 * 0 + 3))) := by
  refine ⟨by decide, by decide, ?_⟩
  exact c1_alpha_zero pxMid pxDark (List.replicate 400 none)
    (List.replicate 400 none) ⟨1, 1, [0, 0, 0, 0]⟩ false ⟨none, none, none⟩
    (by decide) (by decide) (by decide) 0 (by decide)

/-- A one-pixel source whose alpha byte is 100, not 255. -/
def exSrc : ImageData := ⟨1, 1, [10, 20, 30, 100]⟩

/-- A one-pixel opaque target. -/
def exTgt : ImageData := ⟨1, 1, [0, 0, 0, 255]⟩

/-- A one-pixel output buffer. -/
def exOut : ImageData := ⟨1, 1, [0, 0, 0, 0]⟩

/-- A 400-entry target landmark array with every entry null: it passes the
length validation while holding no valid entry. -/
def exTgtLm : Landmarks := List.replicate 400 none

/-- A 400-entry source landmark array with exactly three valid entries, at
the hull indices 10, 338 and 297, so that the hull-mask stage succeeds
while only 3 of 400 entries are valid. -/
def exSrcLm : Landmarks :=
  (((List.replicate 400 (none : Option Point)).set 10 (some (0, 0))).set 338
    (some (1, 0))).set 297 (some (0, 1))

/-- Oracles for the concrete run: the rescaled target and all-zero mask
rasters. -/
def exOracles : Oracles := ⟨some exTgt, some (fun j => 0), some (fun j => 0)⟩

/-- Reading any index of an all-null landmark array gives null. -/
theorem lmGet_replicate_none (n i : ℕ) :
    lmGet (List.replicate n (none : Option Point)) i = none := by
  rw [lmGet]
  rcases Nat.lt_or_ge i n with h | h
  · rw [List.getD_eq_getElem _ _ (by simpa using h)]
    simp
  · rw [List.getD_eq_default _ _ (by simpa using h)]

/-- With an all-null target landmark array every key landmark lookup
fails, so no key target points survive, whatever the scale factors. -/
theorem keyTargetPoints_null (n : ℕ) (sx sy : ℚ) :
    keyTargetPoints (scaleLm (List.replicate n none) sx sy) = [] := by
  rw [keyTargetPoints, List.filterMap_eq_nil_iff]
  intro i _
  rw [scaleLm, List.map_replicate, lmGet_replicate_none]
  rfl

set_option maxRecDepth 100000 in
set_option maxHeartbeats 4000000 in
/-- Full evaluation of the engine on the concrete one-pixel call: the
composite loop runs (no diagnostic fires) and rewrites the alpha byte
from 100 to 255. The all-null target landmark array is dispatched by
keyTargetPoints_null, so the evaluation never sorts the key landmark
index set. -/
theorem morphFace_ex_eval :
    morphFace exSrc exTgt exSrcLm exTgtLm 0 exOut false exOracles =
      ⟨⟨1, 1, [10, 20, 30, 255]⟩, none⟩ := by
  have hkp : keyTargetPoints (scaleLm exTgtLm
      ((exSrc.width : ℚ) / (exTgt.width : ℚ))
      ((exSrc.height : ℚ) / (exTgt.height : ℚ))) = [] :=
    keyTargetPoints_null 400 _ _
  simp only [morphFace, morphBody]
  rw [hkp]
  with_unfolding_all decide

set_option maxRecDepth 10000 in
/-- Counterexample to C1 as frozen: a call with alpha 0 that passes the
length validation, on a source whose alpha byte is 100; the output is
not byte-for-byte the source, since the composite writes alpha 255. -/
theorem c1_alpha_zero_cex :
    400 ≤ exSrcLm.length ∧ 400 ≤ exTgtLm.length ∧
    (morphFace exSrc exTgt exSrcLm exTgtLm 0 exOut false
      exOracles).out.data ≠ exSrc.data := by
  refine ⟨by decide, by decide, ?_⟩
  rw [morphFace_ex_eval]
  decide

set_option maxRecDepth 10000 in
/-- Counterexample to C4 as frozen: exSrcLm has only 3 valid (non-null)
entries, fewer than 400, yet the engine performs the full morph: no
recoverable failure is signalled (err = none, no console.error fires)
and the output is not a copy of the source. -/
theorem c4_insufficient_landmarks_cex :
    (exSrcLm.filterMap id).length < 400 ∧
    (morphFace exSrc exTgt exSrcLm exTgtLm 0 exOut false
      exOracles).err = none ∧
    (morphFace exSrc exTgt exSrcLm exTgtLm 0 exOut false
      exOracles).out.data ≠ exSrc.data := by
  refine ⟨by decide, ?_, ?_⟩ <;> rw [morphFace_ex_eval] <;> decide
